import Mathlib

/-!
Shallow embedding of the `libinspector` core (src/introspection/process.rs and
src/introspection/segment.rs) together with proofs about its parsing and
formatting layer.

Rust operations that can panic (slice/`Vec` indexing, `str` byte slicing,
`todo!`) are modelled in the `POutcome` type, which distinguishes a panic from
a typed error and from success.  Machine integers are modelled as `Nat`/`Int`
with explicit bounds, exactly where Rust's checked parsing enforces them.
-/

set_option maxRecDepth 10000

namespace Inspector

/-- Outcome of a Rust computation: a panic, a typed error (`Err e`), or
success (`Ok a`). -/
inductive POutcome (ε α : Type) : Type where
  | panicked : POutcome ε α
  | error : ε → POutcome ε α
  | ok : α → POutcome ε α
deriving DecidableEq

namespace POutcome

/-- Sequencing of fallible Rust computations (the `?` operator): panics and
errors propagate. -/
def bind {ε α β : Type} : POutcome ε α → (α → POutcome ε β) → POutcome ε β
  | .panicked, _ => .panicked
  | .error e, _ => .error e
  | .ok a, f => f a

@[simp] theorem ok_bind {ε α β : Type} (a : α) (f : α → POutcome ε β) :
    bind (.ok a) f = f a := rfl

@[simp] theorem error_bind {ε α β : Type} (e : ε) (f : α → POutcome ε β) :
    bind (.error e) f = .error e := rfl

@[simp] theorem panicked_bind {ε α β : Type} (f : α → POutcome ε β) :
    bind (.panicked : POutcome ε α) f = .panicked := rfl

end POutcome

/-- Lift an `Except`-valued sub-parse into `POutcome`, converting the error
type (Rust's `From`-based conversion performed by `?`). -/
def liftE {ε ε' α : Type} (inj : ε → ε') : Except ε α → POutcome ε' α
  | .ok a => .ok a
  | .error e => .error (inj e)

@[simp] theorem liftE_ok {ε ε' α : Type} (inj : ε → ε') (a : α) :
    liftE inj (.ok a) = .ok a := rfl

@[simp] theorem liftE_error {ε ε' α : Type} (inj : ε → ε') (e : ε) :
    liftE inj (.error e : Except ε α) = .error (inj e) := rfl

/-- Lift a `POutcome`-valued sub-parse, converting the error type. -/
def liftP {ε ε' α : Type} (inj : ε → ε') : POutcome ε α → POutcome ε' α
  | .panicked => .panicked
  | .error e => .error (inj e)
  | .ok a => .ok a

@[simp] theorem liftP_ok {ε ε' α : Type} (inj : ε → ε') (a : α) :
    liftP inj (.ok a) = .ok a := rfl

@[simp] theorem liftP_error {ε ε' α : Type} (inj : ε → ε') (e : ε) :
    liftP inj (.error e : POutcome ε α) = .error (inj e) := rfl

@[simp] theorem liftP_panicked {ε ε' α : Type} (inj : ε → ε') :
    liftP inj (.panicked : POutcome ε α) = .panicked := rfl

/-- `l[i]` on a list. -/
def listNth {α : Type} : List α → Nat → Option α
  | [], _ => none
  | a :: _, 0 => some a
  | _ :: l, n + 1 => listNth l n

/-- Rust `Vec` indexing `v[i]`: out-of-bounds access panics. -/
def vecIdx {ε α : Type} (l : List α) (i : Nat) : POutcome ε α :=
  match listNth l i with
  | some v => .ok v
  | none => .panicked

@[simp] theorem vecIdx_cons_zero {ε α : Type} (a : α) (l : List α) :
    (vecIdx (a :: l) 0 : POutcome ε α) = .ok a := rfl

@[simp] theorem vecIdx_cons_succ {ε α : Type} (a : α) (l : List α) (n : Nat) :
    (vecIdx (a :: l) (n + 1) : POutcome ε α) = vecIdx l n := rfl

/-- The Unicode `White_Space` property, as used by Rust's
`char::is_whitespace` (the predicate behind `str::split_whitespace`). -/
def rustIsWhitespace (c : Char) : Bool :=
  let n := c.toNat
  (0x9 ≤ n && n ≤ 0xd) || n = 0x20 || n = 0x85 || n = 0xa0 || n = 0x1680 ||
  (0x2000 ≤ n && n ≤ 0x200a) || n = 0x2028 || n = 0x2029 || n = 0x202f ||
  n = 0x205f || n = 0x3000

/-- Worker for `str::split_whitespace`: walks the characters, accumulating the
current token in reverse. -/
def splitWsGo : List Char → List Char → List (List Char)
  | [], acc => if acc.isEmpty then [] else [acc.reverse]
  | c :: rest, acc =>
    if rustIsWhitespace c then
      if acc.isEmpty then splitWsGo rest []
      else acc.reverse :: splitWsGo rest []
    else splitWsGo rest (c :: acc)

/-- Rust `str::split_whitespace`, collected into a list of tokens. -/
def splitWs (s : String) : List String :=
  (splitWsGo s.data []).map String.mk

/-- Rust `str::split(sep)` on a character separator, collected; keeps empty
parts and always yields at least one part. -/
def splitCharList (sep : Char) : List Char → List (List Char)
  | [] => [[]]
  | c :: rest =>
    if c = sep then [] :: splitCharList sep rest
    else
      match splitCharList sep rest with
      | t :: ts => (c :: t) :: ts
      | [] => [[c]]

/-- `str::split(sep).collect::<Vec<_>>()` on a `String`. -/
def splitChar (sep : Char) (s : String) : List String :=
  (splitCharList sep s.data).map String.mk

/-- Rust `str::starts_with` on a literal pattern, over character lists. -/
def leadsWithList : List Char → List Char → Bool
  | [], _ => true
  | _ :: _, [] => false
  | p :: ps, c :: cs => p = c && leadsWithList ps cs

/-- Rust `str::starts_with` on a literal pattern. -/
def leadsWith (p s : String) : Bool :=
  leadsWithList p.data s.data

/-- Rust `str::ends_with` on a character pattern, over character lists. -/
def endsWithCharList (c : Char) (l : List Char) : Bool :=
  match l.reverse with
  | [] => false
  | x :: _ => x = c

/-- Rust `str::ends_with` on a character pattern. -/
def endsWithChar (c : Char) (s : String) : Bool :=
  endsWithCharList c s.data

/-- Fuel-driven worker for `str::trim_start_matches`: repeatedly strip the
pattern from the front while it is present. -/
def trimLeadAux (p : List Char) : Nat → List Char → List Char
  | 0, l => l
  | fuel + 1, l =>
    if !p.isEmpty && leadsWithList p l then trimLeadAux p fuel (l.drop p.length)
    else l

/-- Rust `str::trim_start_matches` with a literal pattern, over character
lists.  `l.length` is enough fuel since each round removes at least one
character. -/
def trimLeadList (p l : List Char) : List Char :=
  trimLeadAux p l.length l

/-- Rust `str::trim_end_matches` with a character pattern: removes every
trailing occurrence of `c`. -/
def trimTrailChar (c : Char) (l : List Char) : List Char :=
  (l.reverse.dropWhile (fun x => x = c)).reverse

/-- UTF-8 byte length of one character. -/
def charLen (c : Char) : Nat :=
  if c.toNat < 0x80 then 1
  else if c.toNat < 0x800 then 2
  else if c.toNat < 0x10000 then 3
  else 4

/-- Drop `n` leading UTF-8 bytes from a character list; `none` when `n` is not
a character boundary or exceeds the string. -/
def dropBytes : List Char → Nat → Option (List Char)
  | l, 0 => some l
  | [], _ + 1 => none
  | c :: rest, n + 1 =>
    if charLen c ≤ n + 1 then dropBytes rest (n + 1 - charLen c) else none

/-- Take `n` leading UTF-8 bytes from a character list; `none` when `n` is not
a character boundary or exceeds the string. -/
def takeBytes : List Char → Nat → Option (List Char)
  | _, 0 => some []
  | [], _ + 1 => none
  | c :: rest, n + 1 =>
    if charLen c ≤ n + 1 then
      match takeBytes rest (n + 1 - charLen c) with
      | some t => some (c :: t)
      | none => none
    else none

/-- Rust `&s[a..b]` byte slicing of a `str`: panics when the range is
reversed, out of bounds, or not on character boundaries. -/
def sliceStr {ε : Type} (s : String) (a b : Nat) : POutcome ε String :=
  if a ≤ b then
    match dropBytes s.data a with
    | some rest =>
      match takeBytes rest (b - a) with
      | some t => .ok (String.mk t)
      | none => .panicked
    | none => .panicked
  else .panicked

/-- Rust `std::num::IntErrorKind`, the payload of `ParseIntError`. -/
inductive ParseIntError : Type where
  | empty
  | invalidDigit
  | posOverflow
  | negOverflow
deriving DecidableEq

/-- Rust `char::to_digit(radix)`: ASCII digits and letters, checked against
the radix. -/
def digitVal (radix : Nat) (c : Char) : Option Nat :=
  if 48 ≤ c.toNat ∧ c.toNat ≤ 57 then
    if c.toNat - 48 < radix then some (c.toNat - 48) else none
  else if 97 ≤ c.toNat ∧ c.toNat ≤ 122 then
    if c.toNat - 87 < radix then some (c.toNat - 87) else none
  else if 65 ≤ c.toNat ∧ c.toNat ≤ 90 then
    if c.toNat - 55 < radix then some (c.toNat - 55) else none
  else none

/-- Digit-accumulation loop of Rust `from_str_radix` for unsigned types:
checked multiply-add against the exclusive bound `bound = 2^bits`. -/
def parseLoop (radix bound : Nat) : List Char → Nat → Except ParseIntError Nat
  | [], acc => .ok acc
  | c :: rest, acc =>
    match digitVal radix c with
    | none => .error .invalidDigit
    | some d =>
      if acc * radix + d < bound then parseLoop radix bound rest (acc * radix + d)
      else .error .posOverflow

/-- Digit-accumulation loop of Rust `from_str_radix` for the negative branch
of signed types: tracks the magnitude, bounded inclusively by `2^(bits-1)`. -/
def parseLoopNeg (radix bound : Nat) : List Char → Nat → Except ParseIntError Nat
  | [], acc => .ok acc
  | c :: rest, acc =>
    match digitVal radix c with
    | none => .error .invalidDigit
    | some d =>
      if acc * radix + d ≤ bound then parseLoopNeg radix bound rest (acc * radix + d)
      else .error .negOverflow

/-- Rust `uN::from_str_radix` (and `str::parse::<uN>()` at radix 10). -/
def parseUnsigned (radix bits : Nat) (s : String) : Except ParseIntError Nat :=
  match s.data with
  | [] => .error .empty
  | c :: rest =>
    if (c = '+' ∨ c = '-') ∧ rest = [] then .error .invalidDigit
    else if c = '+' then parseLoop radix (2 ^ bits) rest 0
    else parseLoop radix (2 ^ bits) (c :: rest) 0

/-- Rust `iN::from_str_radix` (and `str::parse::<iN>()` at radix 10). -/
def parseSigned (radix bits : Nat) (s : String) : Except ParseIntError Int :=
  match s.data with
  | [] => .error .empty
  | c :: rest =>
    if (c = '+' ∨ c = '-') ∧ rest = [] then .error .invalidDigit
    else if c = '+' then
      (parseLoop radix (2 ^ (bits - 1)) rest 0).map (fun n => (n : Int))
    else if c = '-' then
      (parseLoopNeg radix (2 ^ (bits - 1)) rest 0).map (fun n => -(n : Int))
    else (parseLoop radix (2 ^ (bits - 1)) (c :: rest) 0).map (fun n => (n : Int))

/-- `str::parse::<u32>()`. -/
def parse_u32 (s : String) : Except ParseIntError Nat := parseUnsigned 10 32 s

/-- `str::parse::<u64>()`. -/
def parse_u64 (s : String) : Except ParseIntError Nat := parseUnsigned 10 64 s

/-- `u64::from_str_radix(s, 16)`. -/
def parse_hex_u64 (s : String) : Except ParseIntError Nat := parseUnsigned 16 64 s

/-- `str::parse::<i8>()`. -/
def parse_i8 (s : String) : Except ParseIntError Int := parseSigned 10 8 s

/-- `str::parse::<i16>()`. -/
def parse_i16 (s : String) : Except ParseIntError Int := parseSigned 10 16 s

/-- Decimal digit character, as produced by Rust's integer `Display`. -/
def decDigitChar (d : Nat) : Char := Char.ofNat (48 + d)

/-- Character list of Rust's decimal integer `Display` output. -/
def natReprDigits (n : Nat) : List Char :=
  if n = 0 then ['0'] else ((Nat.digits 10 n).map decDigitChar).reverse

/-- Rust `{}` formatting of an unsigned integer. -/
def natRepr (n : Nat) : String := String.mk (natReprDigits n)

/-- Lowercase hexadecimal digit character, as produced by Rust `{:x}`. -/
def hexDigitChar (d : Nat) : Char :=
  if d < 10 then Char.ofNat (48 + d) else Char.ofNat (87 + d)

/-- Rust `{:016x}` formatting of a `u64`: lowercase hex, zero-padded to 16. -/
def hex16 (n : Nat) : String :=
  let ds := if n = 0 then ['0'] else ((Nat.digits 16 n).map hexDigitChar).reverse
  String.mk (List.replicate (16 - ds.length) '0' ++ ds)

/-! ## process.rs: `ProcessState`, `Process` and their codec -/

/-- `ProcessParseError` from src/introspection/process.rs. -/
inductive ProcessParseError : Type where
  | parseIntError : ParseIntError → ProcessParseError
  | parseError : String → ProcessParseError
deriving DecidableEq

/-- `SegmentParseError` from src/introspection/segment.rs. -/
inductive SegmentParseError : Type where
  | parseIntError : ParseIntError → SegmentParseError
  | parseError : String → SegmentParseError
deriving DecidableEq

/-- The `anyhow::Error` carried by the two top-level `from_str` codecs: one of
the module error types or a bare `ParseIntError`, as converted by `?`. -/
inductive AnyError : Type where
  | processParse : ProcessParseError → AnyError
  | segmentParse : SegmentParseError → AnyError
  | intParse : ParseIntError → AnyError
deriving DecidableEq

/-- `ProcessState` from src/introspection/process.rs. -/
inductive ProcessState : Type where
  | Running
  | UninterruptibleSleep
  | InterruptibleSleep
  | Stopped
  | Zombie
  | Tracing
  | Dead
  | Idle
deriving DecidableEq

/-- `impl Display for ProcessState` (process.rs lines 54-68). -/
def ProcessState.display : ProcessState → String
  | .Running => "R"
  | .UninterruptibleSleep => "D"
  | .InterruptibleSleep => "S"
  | .Stopped => "T"
  | .Zombie => "Z"
  | .Tracing => "t"
  | .Dead => "X"
  | .Idle => "I"

/-- `impl FromStr for ProcessState` (process.rs lines 70-89). -/
def ProcessState.from_str (s : String) : Except ProcessParseError ProcessState :=
  if s = "R" then .ok .Running
  else if s = "D" then .ok .UninterruptibleSleep
  else if s = "S" then .ok .InterruptibleSleep
  else if s = "T" then .ok .Stopped
  else if s = "Z" then .ok .Zombie
  else if s = "t" then .ok .Tracing
  else if s = "X" then .ok .Dead
  else if s = "I" then .ok .Idle
  else .error (.parseError ("Unknown process state: " ++ s))

/-! ## segment.rs: `Device`, `SegmentType`, `SegmentPermission`, `Segment` -/

/-- `Device` from src/introspection/segment.rs: `major`/`minor` are `u32`. -/
structure Device : Type where
  major : Nat
  minor : Nat
deriving DecidableEq

/-- `Device::new`. -/
def Device.new (major minor : Nat) : Device := ⟨major, minor⟩

/-- `impl Display for Device` (segment.rs lines 56-60): `"{major}:{minor}"`. -/
def Device.display (d : Device) : String :=
  natRepr d.major ++ ":" ++ natRepr d.minor

/-- `impl FromStr for Device` (segment.rs lines 74-83): split on `:`, parse
both halves as `u32`; indexing `parts[1]` panics when absent. -/
def Device.from_str (s : String) : POutcome ParseIntError Device :=
  let parts := splitChar ':' s
  (vecIdx parts 0).bind fun p0 =>
  (liftE id (parse_u32 p0)).bind fun major =>
  (vecIdx parts 1).bind fun p1 =>
  (liftE id (parse_u32 p1)).bind fun minor =>
  .ok ⟨major, minor⟩

/-- `DataSegment` from src/introspection/segment.rs. -/
inductive DataSegment : Type where
  | Heap
  | Initialized
  | Uninitialized
deriving DecidableEq

/-- `SegmentType` from src/introspection/segment.rs.  `Code` carries the
`PathBuf` produced by `Path::new(&s).to_path_buf()`, modelled as the verbatim
string. -/
inductive SegmentType : Type where
  | Stack
  | SharedLibrary
  | Data : DataSegment → SegmentType
  | Code : String → SegmentType
  | Anonymous : String → SegmentType
  | SharedAnonymous : String → SegmentType
deriving DecidableEq

/-- `impl Display for SegmentType` (segment.rs lines 100-113).  The
`Data(Initialized)` and `Data(Uninitialized)` arms are `todo!()`, which
panics. -/
def SegmentType.display : SegmentType → POutcome Unit String
  | .Stack => .ok "[stack]"
  | .SharedLibrary => .ok "[vdso]"
  | .Data .Heap => .ok "[heap]"
  | .Data .Initialized => .panicked
  | .Data .Uninitialized => .panicked
  | .Code path => .ok path
  | .Anonymous name => .ok ("[anon:" ++ name ++ "]")
  | .SharedAnonymous name => .ok ("[anon_shmem:" ++ name ++ "]")

/-- `impl FromStr for SegmentType` (segment.rs lines 115-139).  Note the use
of `trim_start_matches` / `trim_end_matches`, which strip *all* repetitions of
their pattern. -/
def SegmentType.from_str (s : String) : Except SegmentParseError SegmentType :=
  if leadsWith "[anon:" s && endsWithChar ']' s then
    .ok (.Anonymous (String.mk (trimTrailChar ']' (trimLeadList "[anon:".data s.data))))
  else if leadsWith "[anon_shmem:" s && endsWithChar ']' s then
    .ok (.SharedAnonymous (String.mk (trimTrailChar ']' (trimLeadList "[anon_shmem:".data s.data))))
  else if leadsWith "[" s && endsWithChar ']' s then
    if s = "[stack]" then .ok .Stack
    else if s = "[vdso]" then .ok .SharedLibrary
    else if s = "[heap]" then .ok (.Data .Heap)
    else .error (.parseError ("Unknown segment type: " ++ s))
  else .ok (.Code s)

/-- `SegmentPermission` from src/introspection/segment.rs. -/
inductive SegmentPermission : Type where
  | Read
  | Write
  | Execute
  | NoPermission
  | Private
  | Shared
deriving DecidableEq

/-- `impl Display for SegmentPermission` (segment.rs lines 161-172). -/
def SegmentPermission.display : SegmentPermission → String
  | .Read => "r"
  | .Write => "w"
  | .Execute => "x"
  | .NoPermission => "-"
  | .Private => "p"
  | .Shared => "s"

/-- `impl FromStr for SegmentPermission` (segment.rs lines 174-191). -/
def SegmentPermission.from_str (s : String) : Except SegmentParseError SegmentPermission :=
  if s = "r" then .ok .Read
  else if s = "w" then .ok .Write
  else if s = "x" then .ok .Execute
  else if s = "-" then .ok .NoPermission
  else if s = "p" then .ok .Private
  else if s = "s" then .ok .Shared
  else .error (.parseError ("Unknown segment permission: " ++ s))

/-- `Segment` from src/introspection/segment.rs.  `end` is a Lean keyword, so
the field is named `end_`; the `[SegmentPermission; 4]` array is modelled as a
list (the codec always builds exactly four entries). -/
structure Segment : Type where
  start : Nat
  end_ : Nat
  permissions : List SegmentPermission
  offset : Nat
  device : Device
  inode : Nat
  pathname : SegmentType
deriving DecidableEq

/-- `Segment::new`. -/
def Segment.new (start end_ : Nat) (permissions : List SegmentPermission)
    (offset : Nat) (device : Device) (inode : Nat) (pathname : SegmentType) : Segment :=
  ⟨start, end_, permissions, offset, device, inode, pathname⟩

/-- Derived `Debug` output of a `SegmentPermission` (the variant name). -/
def SegmentPermission.debugStr : SegmentPermission → String
  | .Read => "Read"
  | .Write => "Write"
  | .Execute => "Execute"
  | .NoPermission => "NoPermission"
  | .Private => "Private"
  | .Shared => "Shared"

/-- Derived `Debug` output of the permissions array, `"[a, b, c, d]"`. -/
def debugPerms (ps : List SegmentPermission) : String :=
  "[" ++ String.intercalate ", " (ps.map SegmentPermission.debugStr) ++ "]"

/-- Derived `Debug` output of a `Device`. -/
def Device.debugStr (d : Device) : String :=
  "Device \x7b major: " ++ natRepr d.major ++ ", minor: " ++ natRepr d.minor ++ " \x7d"

/-- `impl Display for Segment` (segment.rs lines 235-249): a hex dump whose
last argument formats the pathname via `Display`, so it panics exactly when
`SegmentType::fmt` does. -/
def Segment.display (seg : Segment) : POutcome Unit String :=
  (seg.pathname.display).bind fun path =>
  .ok (hex16 seg.start ++ "-" ++ hex16 seg.end_ ++ " " ++ debugPerms seg.permissions
    ++ " " ++ hex16 seg.offset ++ " " ++ seg.device.debugStr ++ " " ++ natRepr seg.inode
    ++ " " ++ path)

/-- The permissions-array step of `Segment::from_str` (segment.rs lines
282-287): four one-byte slices of the permission token, each decoded via
`SegmentPermission::from_str`. -/
def segPerms (permissions : String) : POutcome AnyError (List SegmentPermission) :=
  (sliceStr permissions 0 1).bind fun s0 =>
  (liftE AnyError.segmentParse (SegmentPermission.from_str s0)).bind fun p0 =>
  (sliceStr permissions 1 2).bind fun s1 =>
  (liftE AnyError.segmentParse (SegmentPermission.from_str s1)).bind fun p1 =>
  (sliceStr permissions 2 3).bind fun s2 =>
  (liftE AnyError.segmentParse (SegmentPermission.from_str s2)).bind fun p2 =>
  (sliceStr permissions 3 4).bind fun s3 =>
  (liftE AnyError.segmentParse (SegmentPermission.from_str s3)).bind fun p3 =>
  .ok [p0, p1, p2, p3]

/-- Iterator `next()` with `ok_or(ParseError msg)` in `Segment::from_str`:
taking the `k`-th whitespace token, a typed error when missing. -/
def tokOr (parts : List String) (k : Nat) (msg : String) : POutcome AnyError String :=
  match listNth parts k with
  | some t => .ok t
  | none => .error (.segmentParse (.parseError msg))

/-- Body of `impl FromStr for Segment` (segment.rs lines 251-304) after
`split_whitespace`. -/
def segmentFromTokens (parts : List String) : POutcome AnyError Segment :=
  (tokOr parts 0 "No address").bind fun address =>
  (tokOr parts 1 "No permissions").bind fun permissions =>
  (tokOr parts 2 "No offset").bind fun offset =>
  (tokOr parts 3 "No device").bind fun device =>
  (tokOr parts 4 "No inode").bind fun inode =>
  (tokOr parts 5 "No pathname").bind fun pathname =>
  let addresses := splitChar '-' address
  (vecIdx addresses 0).bind fun a0 =>
  (liftE AnyError.intParse (parse_hex_u64 a0)).bind fun start =>
  (vecIdx addresses 1).bind fun a1 =>
  (liftE AnyError.intParse (parse_hex_u64 a1)).bind fun end_ =>
  (segPerms permissions).bind fun perms =>
  (liftE AnyError.intParse (parse_hex_u64 offset)).bind fun off =>
  (liftP AnyError.intParse (Device.from_str device)).bind fun dev =>
  (liftE AnyError.intParse (parse_u64 inode)).bind fun ino =>
  (liftE AnyError.segmentParse (SegmentType.from_str pathname)).bind fun path =>
  .ok (Segment.new start end_ perms off dev ino path)

/-- `impl FromStr for Segment`: split on whitespace, then decode the six
positional fields. -/
def Segment.from_str (s : String) : POutcome AnyError Segment :=
  segmentFromTokens (splitWs s)

/-- The 52 positional fields of `Process` (process.rs lines 93-201), with the
source's Rust types noted: `Pid = u32`; `tty_nr`, `tpgid`, `flags`,
`rt_priority`, `policy`, `exit_code` are `u32`; `priority`, `nice`,
`num_threads` are `i8`; `exit_signal`, `processor` are `i16`; the remaining
counters and addresses are `u64`. -/
structure ProcessFields : Type where
  process_id : Nat
  name : String
  state : ProcessState
  parent_id : Nat
  parent_group_id : Nat
  session_id : Nat
  tty_nr : Nat
  tpgid : Nat
  flags : Nat
  minflt : Nat
  cminflt : Nat
  majflt : Nat
  cmajflt : Nat
  utime : Nat
  stime : Nat
  cutime : Nat
  cstime : Nat
  priority : Int
  nice : Int
  num_threads : Int
  itrealvalue : Nat
  starttime : Nat
  vsize : Nat
  rss : Nat
  rsslim : Nat
  startcode : Nat
  endcode : Nat
  startstack : Nat
  kstkesp : Nat
  kstkeip : Nat
  signal : Nat
  blocked : Nat
  sigignore : Nat
  sigcatch : Nat
  wchan : Nat
  nswap : Nat
  cnswap : Nat
  exit_signal : Int
  processor : Int
  rt_priority : Nat
  policy : Nat
  delayacct_blkio_ticks : Nat
  guest_time : Nat
  cguest_time : Nat
  start_data : Nat
  end_data : Nat
  start_brk : Nat
  arg_start : Nat
  arg_end : Nat
  env_start : Nat
  env_end : Nat
  exit_code : Nat
deriving DecidableEq

/-- `Process` from src/introspection/process.rs: the 52 status fields plus the
two ownership edges `threads : Option<Vec<Process>>` and
`segments : Vec<Box<Segment>>`. -/
inductive Process : Type where
  | mk : ProcessFields → Option (List Process) → List Segment → Process

/-- The 52 positional status fields of a `Process`. -/
def Process.fields : Process → ProcessFields
  | .mk f _ _ => f

/-- The `threads` ownership edge. -/
def Process.threads : Process → Option (List Process)
  | .mk _ t _ => t

/-- The `segments` ownership edge. -/
def Process.segments : Process → List Segment
  | .mk _ _ s => s

/-- `Process::new` (process.rs lines 212-326): takes the 52 status fields and
sets `threads = None`, `segments = vec![]`. -/
def Process.new (process_id : Nat) (name : String) (state : ProcessState)
    (parent_id parent_group_id session_id tty_nr tpgid flags : Nat)
    (minflt cminflt majflt cmajflt utime stime cutime cstime : Nat)
    (priority nice num_threads : Int)
    (itrealvalue starttime vsize rss rsslim startcode endcode startstack : Nat)
    (kstkesp kstkeip signal blocked sigignore sigcatch wchan nswap cnswap : Nat)
    (exit_signal processor : Int) (rt_priority policy : Nat)
    (delayacct_blkio_ticks guest_time cguest_time : Nat)
    (start_data end_data start_brk arg_start arg_end env_start env_end : Nat)
    (exit_code : Nat) : Process :=
  .mk
    ⟨process_id, name, state, parent_id, parent_group_id, session_id, tty_nr,
      tpgid, flags, minflt, cminflt, majflt, cmajflt, utime, stime, cutime,
      cstime, priority, nice, num_threads, itrealvalue, starttime, vsize, rss,
      rsslim, startcode, endcode, startstack, kstkesp, kstkeip, signal,
      blocked, sigignore, sigcatch, wchan, nswap, cnswap, exit_signal,
      processor, rt_priority, policy, delayacct_blkio_ticks, guest_time,
      cguest_time, start_data, end_data, start_brk, arg_start, arg_end,
      env_start, env_end, exit_code⟩
    none []

/-- `impl Display for Process` (process.rs lines 328-336):
`"Process {id} ({name}): {state}"`. -/
def Process.display (p : Process) : String :=
  "Process " ++ natRepr p.fields.process_id ++ " (" ++ p.fields.name ++ "): "
    ++ p.fields.state.display

/-- Body of `impl FromStr for Process` (process.rs lines 338-451) after
`split_whitespace().collect()`: 52 `Vec` indexing operations (each of which
panics when out of bounds) interleaved with `parse()?` at the declared field
types, in source order. -/
def processFromTokens (parts : List String) : POutcome AnyError Process :=
  (vecIdx parts 0).bind fun t0 =>
  (liftE AnyError.intParse (parse_u32 t0)).bind fun process_id =>
  (vecIdx parts 1).bind fun name =>
  (vecIdx parts 2).bind fun t2 =>
  (liftE AnyError.processParse (ProcessState.from_str t2)).bind fun state =>
  (vecIdx parts 3).bind fun t3 =>
  (liftE AnyError.intParse (parse_u32 t3)).bind fun parent_id =>
  (vecIdx parts 4).bind fun t4 =>
  (liftE AnyError.intParse (parse_u32 t4)).bind fun parent_group_id =>
  (vecIdx parts 5).bind fun t5 =>
  (liftE AnyError.intParse (parse_u32 t5)).bind fun session_id =>
  (vecIdx parts 6).bind fun t6 =>
  (liftE AnyError.intParse (parse_u32 t6)).bind fun tty_nr =>
  (vecIdx parts 7).bind fun t7 =>
  (liftE AnyError.intParse (parse_u32 t7)).bind fun tpgid =>
  (vecIdx parts 8).bind fun t8 =>
  (liftE AnyError.intParse (parse_u32 t8)).bind fun flags =>
  (vecIdx parts 9).bind fun t9 =>
  (liftE AnyError.intParse (parse_u64 t9)).bind fun minflt =>
  (vecIdx parts 10).bind fun t10 =>
  (liftE AnyError.intParse (parse_u64 t10)).bind fun cminflt =>
  (vecIdx parts 11).bind fun t11 =>
  (liftE AnyError.intParse (parse_u64 t11)).bind fun majflt =>
  (vecIdx parts 12).bind fun t12 =>
  (liftE AnyError.intParse (parse_u64 t12)).bind fun cmajflt =>
  (vecIdx parts 13).bind fun t13 =>
  (liftE AnyError.intParse (parse_u64 t13)).bind fun utime =>
  (vecIdx parts 14).bind fun t14 =>
  (liftE AnyError.intParse (parse_u64 t14)).bind fun stime =>
  (vecIdx parts 15).bind fun t15 =>
  (liftE AnyError.intParse (parse_u64 t15)).bind fun cutime =>
  (vecIdx parts 16).bind fun t16 =>
  (liftE AnyError.intParse (parse_u64 t16)).bind fun cstime =>
  (vecIdx parts 17).bind fun t17 =>
  (liftE AnyError.intParse (parse_i8 t17)).bind fun priority =>
  (vecIdx parts 18).bind fun t18 =>
  (liftE AnyError.intParse (parse_i8 t18)).bind fun nice =>
  (vecIdx parts 19).bind fun t19 =>
  (liftE AnyError.intParse (parse_i8 t19)).bind fun num_threads =>
  (vecIdx parts 20).bind fun t20 =>
  (liftE AnyError.intParse (parse_u64 t20)).bind fun itrealvalue =>
  (vecIdx parts 21).bind fun t21 =>
  (liftE AnyError.intParse (parse_u64 t21)).bind fun starttime =>
  (vecIdx parts 22).bind fun t22 =>
  (liftE AnyError.intParse (parse_u64 t22)).bind fun vsize =>
  (vecIdx parts 23).bind fun t23 =>
  (liftE AnyError.intParse (parse_u64 t23)).bind fun rss =>
  (vecIdx parts 24).bind fun t24 =>
  (liftE AnyError.intParse (parse_u64 t24)).bind fun rsslim =>
  (vecIdx parts 25).bind fun t25 =>
  (liftE AnyError.intParse (parse_u64 t25)).bind fun startcode =>
  (vecIdx parts 26).bind fun t26 =>
  (liftE AnyError.intParse (parse_u64 t26)).bind fun endcode =>
  (vecIdx parts 27).bind fun t27 =>
  (liftE AnyError.intParse (parse_u64 t27)).bind fun startstack =>
  (vecIdx parts 28).bind fun t28 =>
  (liftE AnyError.intParse (parse_u64 t28)).bind fun kstkesp =>
  (vecIdx parts 29).bind fun t29 =>
  (liftE AnyError.intParse (parse_u64 t29)).bind fun kstkeip =>
  (vecIdx parts 30).bind fun t30 =>
  (liftE AnyError.intParse (parse_u64 t30)).bind fun signal =>
  (vecIdx parts 31).bind fun t31 =>
  (liftE AnyError.intParse (parse_u64 t31)).bind fun blocked =>
  (vecIdx parts 32).bind fun t32 =>
  (liftE AnyError.intParse (parse_u64 t32)).bind fun sigignore =>
  (vecIdx parts 33).bind fun t33 =>
  (liftE AnyError.intParse (parse_u64 t33)).bind fun sigcatch =>
  (vecIdx parts 34).bind fun t34 =>
  (liftE AnyError.intParse (parse_u64 t34)).bind fun wchan =>
  (vecIdx parts 35).bind fun t35 =>
  (liftE AnyError.intParse (parse_u64 t35)).bind fun nswap =>
  (vecIdx parts 36).bind fun t36 =>
  (liftE AnyError.intParse (parse_u64 t36)).bind fun cnswap =>
  (vecIdx parts 37).bind fun t37 =>
  (liftE AnyError.intParse (parse_i16 t37)).bind fun exit_signal =>
  (vecIdx parts 38).bind fun t38 =>
  (liftE AnyError.intParse (parse_i16 t38)).bind fun processor =>
  (vecIdx parts 39).bind fun t39 =>
  (liftE AnyError.intParse (parse_u32 t39)).bind fun rt_priority =>
  (vecIdx parts 40).bind fun t40 =>
  (liftE AnyError.intParse (parse_u32 t40)).bind fun policy =>
  (vecIdx parts 41).bind fun t41 =>
  (liftE AnyError.intParse (parse_u64 t41)).bind fun delayacct_blkio_ticks =>
  (vecIdx parts 42).bind fun t42 =>
  (liftE AnyError.intParse (parse_u64 t42)).bind fun guest_time =>
  (vecIdx parts 43).bind fun t43 =>
  (liftE AnyError.intParse (parse_u64 t43)).bind fun cguest_time =>
  (vecIdx parts 44).bind fun t44 =>
  (liftE AnyError.intParse (parse_u64 t44)).bind fun start_data =>
  (vecIdx parts 45).bind fun t45 =>
  (liftE AnyError.intParse (parse_u64 t45)).bind fun end_data =>
  (vecIdx parts 46).bind fun t46 =>
  (liftE AnyError.intParse (parse_u64 t46)).bind fun start_brk =>
  (vecIdx parts 47).bind fun t47 =>
  (liftE AnyError.intParse (parse_u64 t47)).bind fun arg_start =>
  (vecIdx parts 48).bind fun t48 =>
  (liftE AnyError.intParse (parse_u64 t48)).bind fun arg_end =>
  (vecIdx parts 49).bind fun t49 =>
  (liftE AnyError.intParse (parse_u64 t49)).bind fun env_start =>
  (vecIdx parts 50).bind fun t50 =>
  (liftE AnyError.intParse (parse_u64 t50)).bind fun env_end =>
  (vecIdx parts 51).bind fun t51 =>
  (liftE AnyError.intParse (parse_u32 t51)).bind fun exit_code =>
  .ok (Process.new process_id name state parent_id parent_group_id session_id
    tty_nr tpgid flags minflt cminflt majflt cmajflt utime stime cutime cstime
    priority nice num_threads itrealvalue starttime vsize rss rsslim startcode
    endcode startstack kstkesp kstkeip signal blocked sigignore sigcatch
    wchan nswap cnswap exit_signal processor rt_priority policy
    delayacct_blkio_ticks guest_time cguest_time start_data end_data start_brk
    arg_start arg_end env_start env_end exit_code)

/-- `impl FromStr for Process`: split on whitespace, collect, then decode the
52 positional fields. -/
def Process.from_str (s : String) : POutcome AnyError Process :=
  processFromTokens (splitWs s)

/-- The single-character permission codes of section 3 of the spec. -/
def permCodes : List Char := ['r', 'w', 'x', '-', 'p', 's']

/-- The eight process-state letters of section 3 of the spec. -/
def stateCodes : List String := ["R", "D", "S", "T", "Z", "t", "X", "I"]

/-- Total digit-accumulation value of a character list (specification device
for reasoning about `parseLoop`). -/
def digitsVal (radix : Nat) : List Char → Nat → Nat
  | [], acc => acc
  | c :: rest, acc => digitsVal radix rest (acc * radix + (digitVal radix c).getD 0)

/-! ## Helper lemmas -/

/-- Decimal digit characters have the expected code points. -/
theorem decDigitChar_toNat {d : Nat} (h : d < 10) :
    (decDigitChar d).toNat = 48 + d := by
  interval_cases d <;> decide

/-- `to_digit(10)` on a decimal digit character. -/
theorem digitVal10_of_digit {c : Char} (h1 : 48 ≤ c.toNat) (h2 : c.toNat ≤ 57) :
    digitVal 10 c = some (c.toNat - 48) := by
  unfold digitVal
  rw [if_pos ⟨h1, h2⟩, if_pos (by omega)]

/-- Every character of `natReprDigits n` is a decimal digit character. -/
theorem natReprDigits_digits {n : Nat} {c : Char} (h : c ∈ natReprDigits n) :
    48 ≤ c.toNat ∧ c.toNat ≤ 57 := by
  unfold natReprDigits at h
  by_cases hn : n = 0
  · rw [if_pos hn] at h
    simp only [List.mem_singleton] at h
    subst h; decide
  · rw [if_neg hn] at h
    rw [List.mem_reverse, List.mem_map] at h
    obtain ⟨d, hd, rfl⟩ := h
    have hd10 : d < 10 := Nat.digits_lt_base (by norm_num) hd
    rw [decDigitChar_toNat hd10]
    omega

/-- `natReprDigits` is never empty. -/
theorem natReprDigits_ne_nil (n : Nat) : natReprDigits n ≠ [] := by
  unfold natReprDigits
  by_cases hn : n = 0
  · rw [if_pos hn]; simp
  · rw [if_neg hn]
    simp only [ne_eq, List.reverse_eq_nil_iff, List.map_eq_nil_iff]
    exact Nat.digits_ne_nil_iff_ne_zero.mpr hn

/-- `digitsVal` over an append runs the two halves in sequence. -/
theorem digitsVal_append (radix : Nat) (l1 l2 : List Char) (acc : Nat) :
    digitsVal radix (l1 ++ l2) acc = digitsVal radix l2 (digitsVal radix l1 acc) := by
  induction l1 generalizing acc with
  | nil => rfl
  | cons c rest ih =>
    simp only [List.cons_append, digitsVal]
    exact ih _

/-- The accumulator only grows under `digitsVal` (for radix ≥ 1). -/
theorem digitsVal_ge (radix : Nat) (hr : 1 ≤ radix) (l : List Char) (acc : Nat) :
    acc ≤ digitsVal radix l acc := by
  induction l generalizing acc with
  | nil => exact Nat.le_refl acc
  | cons c rest ih =>
    refine Nat.le_trans ?_ (ih (acc * radix + (digitVal radix c).getD 0))
    calc acc = acc * 1 := (Nat.mul_one acc).symm
    _ ≤ acc * radix := Nat.mul_le_mul_left acc hr
    _ ≤ acc * radix + (digitVal radix c).getD 0 := Nat.le_add_right _ _

/-- The checked digit loop of `from_str_radix` succeeds and computes
`digitsVal` whenever every character is a digit and the final value is below
the bound. -/
theorem parseLoop_ok (radix bound : Nat) (hr : 1 ≤ radix) (l : List Char)
    (acc : Nat) (hdig : ∀ c ∈ l, (digitVal radix c).isSome)
    (hlt : digitsVal radix l acc < bound) :
    parseLoop radix bound l acc = .ok (digitsVal radix l acc) := by
  induction l generalizing acc with
  | nil => rfl
  | cons c rest ih =>
    have hc : (digitVal radix c).isSome := hdig c (List.mem_cons_self c rest)
    obtain ⟨d, hd⟩ := Option.isSome_iff_exists.mp hc
    have hgetD : (digitVal radix c).getD 0 = d := by rw [hd]; rfl
    have hstep : digitsVal radix (c :: rest) acc
        = digitsVal radix rest (acc * radix + d) := by
      simp only [digitsVal, hgetD]
    rw [hstep] at hlt ⊢
    have hbound : acc * radix + d < bound :=
      Nat.lt_of_le_of_lt (digitsVal_ge radix hr rest _) hlt
    simp only [parseLoop, hd, hbound, if_pos]
    exact ih _ (fun x hx => hdig x (List.mem_cons_of_mem c hx)) hlt

/-- `digitsVal` of the reversed decimal rendering of a little-endian digit
list recovers `Nat.ofDigits`. -/
theorem digitsVal_rev_map (L : List Nat) (hL : ∀ d ∈ L, d < 10) (acc : Nat) :
    digitsVal 10 ((L.map decDigitChar).reverse) acc
      = acc * 10 ^ L.length + Nat.ofDigits 10 L := by
  induction L generalizing acc with
  | nil => simp [digitsVal, Nat.ofDigits_nil]
  | cons d L ih =>
    have hd10 : d < 10 := hL d (List.mem_cons_self d L)
    have hrest : ∀ x ∈ L, x < 10 := fun x hx => hL x (List.mem_cons_of_mem d hx)
    rw [List.map_cons, List.reverse_cons, digitsVal_append, ih hrest]
    have hdv : (digitVal 10 (decDigitChar d)).getD 0 = d := by
      rw [digitVal10_of_digit (by rw [decDigitChar_toNat hd10]; omega)
        (by rw [decDigitChar_toNat hd10]; omega), decDigitChar_toNat hd10]
      simp
    simp only [digitsVal, hdv, Nat.ofDigits_cons, List.length_cons]
    ring

/-- `digitsVal` inverts the decimal rendering `natReprDigits`. -/
theorem digitsVal_natReprDigits (n : Nat) :
    digitsVal 10 (natReprDigits n) 0 = n := by
  unfold natReprDigits
  by_cases hn : n = 0
  · rw [if_pos hn]; subst hn; rfl
  · rw [if_neg hn,
      digitsVal_rev_map _ (fun d hd => Nat.digits_lt_base (by norm_num) hd)]
    simp [Nat.ofDigits_digits]

/-- Rust's unsigned decimal parser inverts Rust's decimal rendering, for any
value within the type's range. -/
theorem parseUnsigned_natRepr (bits n : Nat) (h : n < 2 ^ bits) :
    parseUnsigned 10 bits (natRepr n) = .ok n := by
  have hdigs := @natReprDigits_digits n
  have hsome : ∀ c ∈ natReprDigits n, (digitVal 10 c).isSome := by
    intro c hc
    obtain ⟨h1, h2⟩ := hdigs hc
    rw [digitVal10_of_digit h1 h2]
    rfl
  have hval : digitsVal 10 (natReprDigits n) 0 < 2 ^ bits := by
    rw [digitsVal_natReprDigits]; exact h
  unfold parseUnsigned natRepr
  rcases hrep : natReprDigits n with _ | ⟨c, rest⟩
  · exact absurd hrep (natReprDigits_ne_nil n)
  · have hc : 48 ≤ c.toNat ∧ c.toNat ≤ 57 := by
      refine hdigs ?_
      rw [hrep]; exact List.mem_cons_self c rest
    have hplus : ¬(c = '+' ∨ c = '-') := by
      rintro (rfl | rfl) <;> revert hc <;> decide
    simp only [String.mk]
    rw [if_neg (fun hh => hplus hh.1), if_neg (fun hh => hplus (Or.inl hh))]
    rw [← hrep]
    rw [hrep] at hval hsome
    rw [← hrep] at hval hsome
    exact Eq.trans (parseLoop_ok 10 (2 ^ bits) (by norm_num) _ 0 hsome hval)
      (by rw [digitsVal_natReprDigits])

/-- Splitting drops no separator-free head: the first part is everything up
to the first separator. -/
theorem splitCharList_append_cons (sep : Char) (l1 l2 : List Char)
    (h : sep ∉ l1) :
    splitCharList sep (l1 ++ sep :: l2) = l1 :: splitCharList sep l2 := by
  induction l1 with
  | nil => simp [splitCharList]
  | cons c rest ih =>
    have hc : c ≠ sep := fun hh => h (hh ▸ List.mem_cons_self c rest)
    have hrest : sep ∉ rest := fun hh => h (List.mem_cons_of_mem c hh)
    simp only [List.cons_append, splitCharList, if_neg hc]
    rw [show rest.append (sep :: l2) = rest ++ sep :: l2 from rfl, ih hrest]

/-- Splitting a separator-free list yields that single part. -/
theorem splitCharList_no_sep (sep : Char) (l : List Char) (h : sep ∉ l) :
    splitCharList sep l = [l] := by
  induction l with
  | nil => rfl
  | cons c rest ih =>
    have hc : c ≠ sep := fun hh => h (hh ▸ List.mem_cons_self c rest)
    have hrest : sep ∉ rest := fun hh => h (List.mem_cons_of_mem c hh)
    simp only [splitCharList, if_neg hc, ih hrest]

/-- The encoded form `"{major}:{minor}"` splits back into exactly the two
rendered numbers. -/
theorem splitChar_device_display (ma mi : Nat) :
    splitChar ':' (Device.display ⟨ma, mi⟩) = [natRepr ma, natRepr mi] := by
  have hma : ':' ∉ natReprDigits ma := by
    intro hc
    have := natReprDigits_digits hc
    revert this; decide
  have hmi : ':' ∉ natReprDigits mi := by
    intro hc
    have := natReprDigits_digits hc
    revert this; decide
  have hdata : (Device.display ⟨ma, mi⟩).data
      = natReprDigits ma ++ ':' :: natReprDigits mi := by
    show (natReprDigits ma ++ [':']) ++ natReprDigits mi
      = natReprDigits ma ++ ':' :: natReprDigits mi
    simp
  unfold splitChar
  rw [hdata, splitCharList_append_cons ':' _ _ hma, splitCharList_no_sep ':' _ hmi]
  rfl

/-- Each permission code decodes (as a one-character string) to a variant
whose `Display` form is that same one-character string. -/
theorem permChar_ok {c : Char} (h : c ∈ permCodes) :
    ∃ p : SegmentPermission,
      SegmentPermission.from_str (String.mk [c]) = .ok p ∧
      p.display = String.mk [c] := by
  simp only [permCodes, List.mem_cons, List.not_mem_nil, or_false] at h
  rcases h with h | h | h | h | h | h <;> subst h
  · exact ⟨.Read, rfl, rfl⟩
  · exact ⟨.Write, rfl, rfl⟩
  · exact ⟨.Execute, rfl, rfl⟩
  · exact ⟨.NoPermission, rfl, rfl⟩
  · exact ⟨.Private, rfl, rfl⟩
  · exact ⟨.Shared, rfl, rfl⟩

/-- `str::split` never yields an empty part list. -/
theorem splitCharList_ne_nil (sep : Char) (l : List Char) :
    splitCharList sep l ≠ [] := by
  induction l with
  | nil => simp [splitCharList]
  | cons c rest ih =>
    by_cases hc : c = sep
    · simp [splitCharList, hc]
    · simp only [splitCharList, if_neg hc]
      rcases hrec : splitCharList sep rest with _ | ⟨t, ts⟩
      · exact absurd hrec ih
      · simp

/-- A list containing the separator splits into at least two parts. -/
theorem splitCharList_length_of_mem (sep : Char) (l : List Char)
    (h : sep ∈ l) : 2 ≤ (splitCharList sep l).length := by
  induction l with
  | nil => cases h
  | cons c rest ih =>
    by_cases hc : c = sep
    · simp only [splitCharList, if_pos hc, List.length_cons]
      have := splitCharList_ne_nil sep rest
      have : 1 ≤ (splitCharList sep rest).length :=
        Nat.one_le_iff_ne_zero.mpr (fun hz => this (List.length_eq_zero.mp hz))
      omega
    · have hmem : sep ∈ rest := by
        rcases List.mem_cons.mp h with h1 | h1
        · exact absurd h1.symm hc
        · exact h1
      simp only [splitCharList, if_neg hc]
      rcases hrec : splitCharList sep rest with _ | ⟨t, ts⟩
      · exact absurd hrec (splitCharList_ne_nil sep rest)
      · have := ih hmem
        rw [hrec] at this
        simpa using this

/-! ## Claims -/

/-- C5: each of the eight letters `R D S T Z t X I` decodes to a state whose
re-encoding via `Display` is the original letter, and every other string
fails with the unknown-state error carrying the offending token. -/
theorem processState_decode_encode (s : String) :
    (s ∈ stateCodes →
      ∃ st, ProcessState.from_str s = .ok st ∧ st.display = s) ∧
    (s ∉ stateCodes →
      ProcessState.from_str s =
        .error (.parseError ("Unknown process state: " ++ s))) := by
  constructor
  · intro h
    simp only [stateCodes, List.mem_cons, List.not_mem_nil, or_false] at h
    rcases h with h | h | h | h | h | h | h | h <;> subst h
    · exact ⟨.Running, rfl, rfl⟩
    · exact ⟨.UninterruptibleSleep, rfl, rfl⟩
    · exact ⟨.InterruptibleSleep, rfl, rfl⟩
    · exact ⟨.Stopped, rfl, rfl⟩
    · exact ⟨.Zombie, rfl, rfl⟩
    · exact ⟨.Tracing, rfl, rfl⟩
    · exact ⟨.Dead, rfl, rfl⟩
    · exact ⟨.Idle, rfl, rfl⟩
  · intro h
    simp only [stateCodes, List.mem_cons, List.not_mem_nil, or_false,
      not_or] at h
    obtain ⟨h1, h2, h3, h4, h5, h6, h7, h8⟩ := h
    unfold ProcessState.from_str
    rw [if_neg h1, if_neg h2, if_neg h3, if_neg h4, if_neg h5, if_neg h6,
      if_neg h7, if_neg h8]

/-- Witness for C5 at the concrete inputs `"R"` and `"q"`. -/
theorem processState_decode_encode_witness :
    (∃ st, ProcessState.from_str "R" = .ok st ∧ st.display = "R") ∧
    ProcessState.from_str "q" =
      .error (.parseError ("Unknown process state: " ++ "q")) :=
  ⟨(processState_decode_encode "R").1 (by decide),
    (processState_decode_encode "q").2 (by decide)⟩

/-- C6: every 4-character permission string over `{r,w,x,-,p,s}` decodes
character by character to variants whose concatenated `Display` forms
reproduce the original string; `"rwxp"` decodes to
`[Read, Write, Execute, Private]` and `"----"` to `[NoPermission; 4]`. -/
theorem segmentPermission_decode_encode :
    (∀ c1 c2 c3 c4 : Char, c1 ∈ permCodes → c2 ∈ permCodes →
      c3 ∈ permCodes → c4 ∈ permCodes →
      ∃ p1 p2 p3 p4 : SegmentPermission,
        SegmentPermission.from_str (String.mk [c1]) = .ok p1 ∧
        SegmentPermission.from_str (String.mk [c2]) = .ok p2 ∧
        SegmentPermission.from_str (String.mk [c3]) = .ok p3 ∧
        SegmentPermission.from_str (String.mk [c4]) = .ok p4 ∧
        p1.display ++ p2.display ++ p3.display ++ p4.display =
          String.mk [c1, c2, c3, c4]) ∧
    segPerms "rwxp" = .ok [.Read, .Write, .Execute, .Private] ∧
    segPerms "----" =
      .ok [.NoPermission, .NoPermission, .NoPermission, .NoPermission] := by
  refine ⟨fun c1 c2 c3 c4 h1 h2 h3 h4 => ?_, rfl, rfl⟩
  obtain ⟨p1, e1, d1⟩ := permChar_ok h1
  obtain ⟨p2, e2, d2⟩ := permChar_ok h2
  obtain ⟨p3, e3, d3⟩ := permChar_ok h3
  obtain ⟨p4, e4, d4⟩ := permChar_ok h4
  exact ⟨p1, p2, p3, p4, e1, e2, e3, e4, by rw [d1, d2, d3, d4]; rfl⟩

/-- Witness for C6 at the concrete permission string `"rwxp"`. -/
theorem segmentPermission_decode_encode_witness :
    ∃ p1 p2 p3 p4 : SegmentPermission,
      SegmentPermission.from_str (String.mk ['r']) = .ok p1 ∧
      SegmentPermission.from_str (String.mk ['w']) = .ok p2 ∧
      SegmentPermission.from_str (String.mk ['x']) = .ok p3 ∧
      SegmentPermission.from_str (String.mk ['p']) = .ok p4 ∧
      p1.display ++ p2.display ++ p3.display ++ p4.display =
        String.mk ['r', 'w', 'x', 'p'] :=
  segmentPermission_decode_encode.1 'r' 'w' 'x' 'p'
    (by decide) (by decide) (by decide) (by decide)

/-- C10: `SegmentType`'s `Display` panics on `Data(Initialized)` and
`Data(Uninitialized)` (the `todo!()` arms) and succeeds with the canonical
text on every other variant; a `Segment` whose pathname holds one of the two
`todo!()` variants therefore also panics when formatted. -/
theorem segmentType_display_partial :
    SegmentType.display (.Data .Initialized) = .panicked ∧
    SegmentType.display (.Data .Uninitialized) = .panicked ∧
    SegmentType.display .Stack = .ok "[stack]" ∧
    SegmentType.display .SharedLibrary = .ok "[vdso]" ∧
    SegmentType.display (.Data .Heap) = .ok "[heap]" ∧
    (∀ p, SegmentType.display (.Code p) = .ok p) ∧
    (∀ n, SegmentType.display (.Anonymous n) = .ok ("[anon:" ++ n ++ "]")) ∧
    (∀ n, SegmentType.display (.SharedAnonymous n) =
      .ok ("[anon_shmem:" ++ n ++ "]")) ∧
    (∀ seg : Segment,
      seg.pathname = .Data .Initialized ∨ seg.pathname = .Data .Uninitialized →
      seg.display = .panicked) := by
  refine ⟨rfl, rfl, rfl, rfl, rfl, fun _ => rfl, fun _ => rfl, fun _ => rfl,
    fun seg h => ?_⟩
  rcases h with h | h <;> simp [Segment.display, h, SegmentType.display]

/-- Witness for C10 at a concrete segment holding `Data(Initialized)`. -/
theorem segmentType_display_partial_witness :
    (Segment.new 0 0 [] 0 ⟨0, 0⟩ 0 (.Data .Initialized)).display = .panicked :=
  segmentType_display_partial.2.2.2.2.2.2.2.2 _ (Or.inl rfl)

/-- C7: `decode(encode(d)) = d` for every `Device` with 32-bit major and
minor, and `decode_device("0:0") = Device{0,0}`. -/
theorem device_decode_encode :
    (∀ ma mi : Nat, ma < 2 ^ 32 → mi < 2 ^ 32 →
      Device.from_str (Device.display ⟨ma, mi⟩) = .ok ⟨ma, mi⟩) ∧
    Device.from_str "0:0" = .ok ⟨0, 0⟩ := by
  refine ⟨fun ma mi hma hmi => ?_, rfl⟩
  simp only [Device.from_str]
  rw [splitChar_device_display]
  simp only [vecIdx_cons_zero, vecIdx_cons_succ, POutcome.ok_bind]
  rw [show parse_u32 (natRepr ma) = .ok ma from parseUnsigned_natRepr 32 ma hma]
  simp only [liftE_ok, POutcome.ok_bind]
  rw [show parse_u32 (natRepr mi) = .ok mi from parseUnsigned_natRepr 32 mi hmi]
  simp only [liftE_ok, POutcome.ok_bind]

/-- Witness for C7 at the concrete device `7:3`. -/
theorem device_decode_encode_witness :
    Device.from_str (Device.display ⟨7, 3⟩) = .ok ⟨7, 3⟩ :=
  device_decode_encode.1 7 3 (by norm_num) (by norm_num)

/-- C8 counterexample: on input `"5"` (no `:` separator, valid number),
`decode_device` panics indexing `parts[1]` — it does not return a typed
`ParseIntError`. -/
theorem device_decode_panics_counterexample :
    Device.from_str "5" = .panicked ∧
    ∀ e : ParseIntError, Device.from_str "5" ≠ .error e :=
  ⟨rfl, fun _ h => POutcome.noConfusion h⟩

/-- C8 (amended): on every input containing a `:`, `decode_device` either
succeeds or fails with a propagated `ParseIntError` and never panics; on a
`:`-free input it panics on `parts[1]` if the whole input parses as `u32`
(e.g. `"5"`), and still returns the typed error if the first parse fails
first (e.g. `"abc"`). -/
theorem device_decode_errors_amended :
    (∀ s : String, ':' ∈ s.data → Device.from_str s ≠ .panicked) ∧
    Device.from_str "5" = .panicked ∧
    Device.from_str "abc" = .error .invalidDigit := by
  refine ⟨fun s hs => ?_, rfl, rfl⟩
  have hlen : 2 ≤ (splitChar ':' s).length := by
    unfold splitChar
    rw [List.length_map]
    exact splitCharList_length_of_mem ':' s.data hs
  rcases hp : splitChar ':' s with _ | ⟨p0, _ | ⟨p1, t⟩⟩
  · rw [hp] at hlen; simp at hlen
  · rw [hp] at hlen; simp at hlen
  · simp only [Device.from_str]
    rw [hp]
    simp only [vecIdx_cons_zero, vecIdx_cons_succ, POutcome.ok_bind]
    rcases h0 : parse_u32 p0 with e0 | v0
    · simp [h0]
    · rcases h1 : parse_u32 p1 with e1 | v1 <;> simp [h0, h1]

/-- Witness for C8's amended theorem at the concrete input `"1:2"`. -/
theorem device_decode_errors_amended_witness :
    Device.from_str "1:2" ≠ .panicked :=
  device_decode_errors_amended.1 "1:2" (by decide)

/-- `split_whitespace` skips any run of leading whitespace without emitting a
token. -/
theorem splitWsGo_ws_skip (pad l : List Char)
    (h : ∀ c ∈ pad, rustIsWhitespace c) :
    splitWsGo (pad ++ l) [] = splitWsGo l [] := by
  induction pad with
  | nil => rfl
  | cons c rest ih =>
    simp only [List.cons_append, splitWsGo,
      h c (List.mem_cons_self c rest), if_pos, List.isEmpty_nil, if_true]
    exact ih fun x hx => h x (List.mem_cons_of_mem c hx)

/-- Tokenisation of the five fixed fields of the `[stack]` maps line, for an
arbitrary tail. -/
theorem splitWsGo_stackbase (l : List Char) :
    splitWsGo ("7ffea490d000-7ffea4a0f000 rw-p 00000000 00:00 0 ".data ++ l) []
      = "7ffea490d000-7ffea4a0f000".data :: "rw-p".data :: "00000000".data ::
        "00:00".data :: "0".data :: splitWsGo l [] := rfl

/-- C3: the `/dev/null` literal maps line decodes to the all-zero segment
with `Code("/dev/null")`, and the `[stack]` literal line — under any amount
of whitespace padding before the pathname — decodes to the claimed stack
segment. -/
theorem segment_literal_decodes :
    Segment.from_str
        "0000000000000000-0000000000000000 ---- 0000000000000000 00:00 0 /dev/null"
      = .ok (Segment.new 0 0
          [.NoPermission, .NoPermission, .NoPermission, .NoPermission]
          0 ⟨0, 0⟩ 0 (.Code "/dev/null")) ∧
    (∀ pad : List Char, (∀ c ∈ pad, rustIsWhitespace c) →
      Segment.from_str (String.mk
          ("7ffea490d000-7ffea4a0f000 rw-p 00000000 00:00 0 ".data ++ pad
            ++ "[stack]".data))
        = .ok (Segment.new 0x7ffea490d000 0x7ffea4a0f000
            [.Read, .Write, .NoPermission, .Private] 0 ⟨0, 0⟩ 0 .Stack)) := by
  refine ⟨rfl, fun pad hpad => ?_⟩
  have h1 : splitWs (String.mk
      ("7ffea490d000-7ffea4a0f000 rw-p 00000000 00:00 0 ".data ++ pad
        ++ "[stack]".data))
      = ["7ffea490d000-7ffea4a0f000", "rw-p", "00000000", "00:00", "0",
          "[stack]"] := by
    unfold splitWs
    rw [show (String.mk
        ("7ffea490d000-7ffea4a0f000 rw-p 00000000 00:00 0 ".data ++ pad
          ++ "[stack]".data)).data
      = "7ffea490d000-7ffea4a0f000 rw-p 00000000 00:00 0 ".data
          ++ (pad ++ "[stack]".data) by simp]
    rw [splitWsGo_stackbase, splitWsGo_ws_skip pad _ hpad]
    rfl
  unfold Segment.from_str
  rw [h1]
  rfl

/-- Witness for C3's padded conjunct with 25 spaces of padding (the padding
used by the repository's own test). -/
theorem segment_literal_decodes_witness :
    Segment.from_str (String.mk
        ("7ffea490d000-7ffea4a0f000 rw-p 00000000 00:00 0 ".data
          ++ List.replicate 25 ' ' ++ "[stack]".data))
      = .ok (Segment.new 0x7ffea490d000 0x7ffea4a0f000
          [.Read, .Write, .NoPermission, .Private] 0 ⟨0, 0⟩ 0 .Stack) :=
  segment_literal_decodes.2 (List.replicate 25 ' ') (by decide)

/-- String append acts as list append on the character data. -/
theorem string_data_append (a b : String) : (a ++ b).data = a.data ++ b.data := rfl

/-- `starts_with` holds on a list extending the pattern. -/
theorem leadsWithList_append_self (p l : List Char) :
    leadsWithList p (p ++ l) = true := by
  induction p with
  | nil => rfl
  | cons c rest ih => simp [leadsWithList, ih]

/-- `ends_with(']')` holds after appending `']'`. -/
theorem endsWithCharList_append_rbracket (l : List Char) :
    endsWithCharList ']' (l ++ [']']) = true := by
  unfold endsWithCharList
  rw [List.reverse_append]
  rfl

/-- `trim_start_matches` is the identity when the pattern is not a head. -/
theorem trimLeadAux_of_not_leads (p l : List Char) (fuel : Nat)
    (h : leadsWithList p l = false) : trimLeadAux p fuel l = l := by
  cases fuel with
  | zero => rfl
  | succ k => simp [trimLeadAux, h]

/-- One round of `trim_start_matches` when the stripped remainder no longer
starts with the pattern. -/
theorem trimLeadList_strip (p rest : List Char) (hp : p ≠ [])
    (h : leadsWithList p rest = false) :
    trimLeadList p (p ++ rest) = rest := by
  unfold trimLeadList
  rw [show (p ++ rest).length = (p.length + rest.length - 1) + 1 by
    have : 1 ≤ p.length := List.length_pos.mpr hp
    simp [List.length_append]
    omega]
  simp only [trimLeadAux, List.isEmpty_eq_true, hp, leadsWithList_append_self,
    Bool.and_true, if_pos, List.drop_left]
  have hpe : p.isEmpty = false := by
    rcases p with _ | _
    · exact absurd rfl hp
    · rfl
  rw [hpe]
  simp only [Bool.not_false, Bool.true_and, leadsWithList_append_self, if_pos,
    List.drop_left]
  exact trimLeadAux_of_not_leads p rest _ h

/-- `trim_end_matches(']')` removes exactly the final `']'` when the
remainder does not itself end in `']'`. -/
theorem trimTrailChar_append_rbracket (l : List Char)
    (h : endsWithCharList ']' l = false) :
    trimTrailChar ']' (l ++ [']']) = l := by
  unfold trimTrailChar
  rw [List.reverse_append]
  have hstep : List.dropWhile (fun x => x = ']') ([']'].reverse ++ l.reverse)
      = List.dropWhile (fun x => x = ']') l.reverse := by
    show List.dropWhile (fun x => x = ']') (']' :: l.reverse) = _
    rw [List.dropWhile_cons]
    simp
  rw [hstep]
  unfold endsWithCharList at h
  rcases hl : l.reverse with _ | ⟨x, xs⟩
  · rw [List.reverse_eq_nil_iff] at hl
    subst hl
    rfl
  · rw [hl] at h
    rw [List.dropWhile_cons, if_neg (by simp_all)]
    rw [← hl, List.reverse_reverse]

/-- C9 counterexample: `decode_segment_type "[anon:x]]"` (the tag built from
the name `"x]"`) extracts `"x"`, not the verbatim name `"x]"`, because
`trim_end_matches` strips every trailing `']'`. -/
theorem segmentType_anon_counterexample :
    SegmentType.from_str "[anon:x]]" = .ok (.Anonymous "x") ∧
    (SegmentType.Anonymous "x" : SegmentType) ≠ .Anonymous "x]" :=
  ⟨rfl, by decide⟩

/-- C9 (amended): `[anon:<name>]` / `[anon_shmem:<name>]` extract `<name>`
verbatim only when the name does not end in `']'` and the name followed by
`']'` does not itself start with the tag (otherwise the repeated
trimming removes more); the three fixed tags map to their variants, and every
other bracketed tag fails with the unknown-tag error. -/
theorem segmentType_decode_amended :
    (∀ name : String,
      leadsWith "[anon:" (name ++ "]") = false →
      endsWithChar ']' name = false →
      SegmentType.from_str ("[anon:" ++ name ++ "]") = .ok (.Anonymous name)) ∧
    (∀ name : String,
      leadsWith "[anon_shmem:" (name ++ "]") = false →
      endsWithChar ']' name = false →
      SegmentType.from_str ("[anon_shmem:" ++ name ++ "]")
        = .ok (.SharedAnonymous name)) ∧
    SegmentType.from_str "[stack]" = .ok .Stack ∧
    SegmentType.from_str "[vdso]" = .ok .SharedLibrary ∧
    SegmentType.from_str "[heap]" = .ok (.Data .Heap) ∧
    (∀ s : String, leadsWith "[" s = true → endsWithChar ']' s = true →
      leadsWith "[anon:" s = false → leadsWith "[anon_shmem:" s = false →
      s ≠ "[stack]" → s ≠ "[vdso]" → s ≠ "[heap]" →
      SegmentType.from_str s
        = .error (.parseError ("Unknown segment type: " ++ s))) := by
  refine ⟨fun name h1 h2 => ?_, fun name h1 h2 => ?_, rfl, rfl, rfl,
    fun s g1 g2 g3 g4 g5 g6 g7 => ?_⟩
  · obtain ⟨nameL⟩ := name
    have hdata : ("[anon:" ++ String.mk nameL ++ "]").data
        = "[anon:".data ++ (nameL ++ [']']) := by
      rw [string_data_append, string_data_append, List.append_assoc]
    have h1' : leadsWithList "[anon:".data (nameL ++ [']']) = false := h1
    unfold SegmentType.from_str
    rw [show leadsWith "[anon:" ("[anon:" ++ String.mk nameL ++ "]")
        = true by
      unfold leadsWith
      rw [hdata]
      exact leadsWithList_append_self _ _]
    rw [show endsWithChar ']' ("[anon:" ++ String.mk nameL ++ "]") = true by
      unfold endsWithChar
      rw [hdata, show "[anon:".data ++ (nameL ++ [']'])
          = ("[anon:".data ++ nameL) ++ [']'] by simp]
      exact endsWithCharList_append_rbracket _]
    simp only [Bool.and_self, if_pos]
    rw [hdata, trimLeadList_strip _ _ (by decide) h1',
      trimTrailChar_append_rbracket _ h2]
  · obtain ⟨nameL⟩ := name
    have hdata : ("[anon_shmem:" ++ String.mk nameL ++ "]").data
        = "[anon_shmem:".data ++ (nameL ++ [']']) := by
      rw [string_data_append, string_data_append, List.append_assoc]
    have h1' : leadsWithList "[anon_shmem:".data (nameL ++ [']']) = false := h1
    unfold SegmentType.from_str
    rw [show leadsWith "[anon:" ("[anon_shmem:" ++ String.mk nameL ++ "]")
        = false from rfl]
    rw [show leadsWith "[anon_shmem:" ("[anon_shmem:" ++ String.mk nameL ++ "]")
        = true by
      unfold leadsWith
      rw [hdata]
      exact leadsWithList_append_self _ _]
    rw [show endsWithChar ']' ("[anon_shmem:" ++ String.mk nameL ++ "]")
        = true by
      unfold endsWithChar
      rw [hdata, show "[anon_shmem:".data ++ (nameL ++ [']'])
          = ("[anon_shmem:".data ++ nameL) ++ [']'] by simp]
      exact endsWithCharList_append_rbracket _]
    simp only [Bool.false_and, Bool.and_self, if_pos, Bool.false_eq_true,
      if_false]
    rw [hdata, trimLeadList_strip _ _ (by decide) h1',
      trimTrailChar_append_rbracket _ h2]
  · unfold SegmentType.from_str
    rw [g1, g2, g3, g4]
    simp only [Bool.false_and, Bool.and_self, Bool.false_eq_true, if_false,
      if_pos]
    rw [if_neg g5, if_neg g6, if_neg g7]

/-- Witness for C9's amended theorem: the plain name `"x"` and the unknown
tag `"[vvar]"`. -/
theorem segmentType_decode_amended_witness :
    SegmentType.from_str ("[anon:" ++ "x" ++ "]") = .ok (.Anonymous "x") ∧
    SegmentType.from_str "[vvar]"
      = .error (.parseError ("Unknown segment type: " ++ "[vvar]")) :=
  ⟨segmentType_decode_amended.1 "x" (by decide) (by decide),
    segmentType_decode_amended.2.2.2.2.2 "[vvar]" (by decide) (by decide)
      (by decide) (by decide) (by decide) (by decide) (by decide)⟩

/-- The four one-byte slices of a token of exactly four single-byte
characters. -/
theorem sliceStr_four {ε : Type} (s : String) (c0 c1 c2 c3 : Char)
    (h : s.data = [c0, c1, c2, c3]) (h0 : charLen c0 = 1) (h1 : charLen c1 = 1)
    (h2 : charLen c2 = 1) (h3 : charLen c3 = 1) :
    (sliceStr s 0 1 : POutcome ε String) = .ok (String.mk [c0]) ∧
    (sliceStr s 1 2 : POutcome ε String) = .ok (String.mk [c1]) ∧
    (sliceStr s 2 3 : POutcome ε String) = .ok (String.mk [c2]) ∧
    (sliceStr s 3 4 : POutcome ε String) = .ok (String.mk [c3]) := by
  refine ⟨?_, ?_, ?_, ?_⟩ <;>
    simp [sliceStr, h, dropBytes, takeBytes, h0, h1, h2, h3]

/-- A one-character permission string outside the six codes yields the
unknown-permission error. -/
theorem segmentPermission_invalid {c : Char} (h : c ∉ permCodes) :
    SegmentPermission.from_str (String.mk [c])
      = .error (.parseError ("Unknown segment permission: " ++ String.mk [c])) := by
  simp only [permCodes, List.mem_cons, List.not_mem_nil, or_false,
    not_or] at h
  obtain ⟨h1, h2, h3, h4, h5, h6⟩ := h
  have hne : ∀ (x : Char) (lit : String), lit.data = [x] → c ≠ x →
      String.mk [c] ≠ lit := by
    intro x lit hlit hx hh
    apply hx
    have hd : [c] = lit.data := congrArg String.data hh
    rw [hlit] at hd
    injection hd with hc _
  unfold SegmentPermission.from_str
  rw [if_neg (hne 'r' "r" rfl h1), if_neg (hne 'w' "w" rfl h2),
    if_neg (hne 'x' "x" rfl h3), if_neg (hne '-' "-" rfl h4),
    if_neg (hne 'p' "p" rfl h5), if_neg (hne 's' "s" rfl h6)]

/-- Evaluation of the segment decoder on an explicit six-or-more token
list. -/
theorem segmentFromTokens_eval (t0 t1 t2 t3 t4 t5 : String)
    (rest : List String) :
    segmentFromTokens (t0 :: t1 :: t2 :: t3 :: t4 :: t5 :: rest)
      = (vecIdx (splitChar '-' t0) 0).bind fun a0 =>
        (liftE AnyError.intParse (parse_hex_u64 a0)).bind fun start =>
        (vecIdx (splitChar '-' t0) 1).bind fun a1 =>
        (liftE AnyError.intParse (parse_hex_u64 a1)).bind fun end_ =>
        (segPerms t1).bind fun perms =>
        (liftE AnyError.intParse (parse_hex_u64 t2)).bind fun off =>
        (liftP AnyError.intParse (Device.from_str t3)).bind fun dev =>
        (liftE AnyError.intParse (parse_u64 t4)).bind fun ino =>
        (liftE AnyError.segmentParse (SegmentType.from_str t5)).bind fun path =>
        .ok (Segment.new start end_ perms off dev ino path) := rfl

/-- C4 counterexample: a five-character permission field with a valid prefix
(`"rwxps"`) decodes *successfully* (no typed error), and a three-character
permission field (`"rw-"`) panics from byte slicing (no typed error
either). -/
theorem segment_permission_counterexample :
    Segment.from_str "0-0 rwxps 0 0:0 0 x"
      = .ok (Segment.new 0 0 [.Read, .Write, .Execute, .Private] 0 ⟨0, 0⟩ 0
          (.Code "x")) ∧
    Segment.from_str "0-0 rw- 0 0:0 0 x" = .panicked :=
  ⟨rfl, rfl⟩

/-- C4 (amended): on a maps line whose address field parses and whose
permission token consists of exactly four single-byte characters at least one
of which is outside `{r,w,x,-,p,s}`, `decode_segment` returns the
unknown-permission error identifying an offending character; a permission
token shorter than four bytes panics from byte slicing, and a longer token
whose first four characters are valid decodes from those four alone. -/
theorem segment_permission_errors_amended :
    (∀ (s t0 t1 t2 t3 t4 t5 : String) (rest : List String)
      (c0 c1 c2 c3 : Char) (a0 a1 : String) (sv ev : Nat),
      splitWs s = t0 :: t1 :: t2 :: t3 :: t4 :: t5 :: rest →
      splitChar '-' t0 = [a0, a1] →
      parse_hex_u64 a0 = .ok sv → parse_hex_u64 a1 = .ok ev →
      t1.data = [c0, c1, c2, c3] →
      charLen c0 = 1 → charLen c1 = 1 → charLen c2 = 1 → charLen c3 = 1 →
      ¬(c0 ∈ permCodes ∧ c1 ∈ permCodes ∧ c2 ∈ permCodes ∧ c3 ∈ permCodes) →
      ∃ c : Char, c ∈ [c0, c1, c2, c3] ∧ c ∉ permCodes ∧
        Segment.from_str s
          = .error (.segmentParse (.parseError
              ("Unknown segment permission: " ++ String.mk [c])))) ∧
    Segment.from_str "0-0 rwxps 0 0:0 0 x"
      = .ok (Segment.new 0 0 [.Read, .Write, .Execute, .Private] 0 ⟨0, 0⟩ 0
          (.Code "x")) ∧
    Segment.from_str "0-0 rw- 0 0:0 0 x" = .panicked := by
  refine ⟨?_, rfl, rfl⟩
  intro s t0 t1 t2 t3 t4 t5 rest c0 c1 c2 c3 a0 a1 sv ev hsplit haddr ha0 ha1
    ht1 hl0 hl1 hl2 hl3 hbad
  obtain ⟨hs0, hs1, hs2, hs3⟩ :=
    sliceStr_four (ε := AnyError) t1 c0 c1 c2 c3 ht1 hl0 hl1 hl2 hl3
  unfold Segment.from_str
  rw [hsplit, segmentFromTokens_eval, haddr]
  simp only [vecIdx_cons_zero, vecIdx_cons_succ, POutcome.ok_bind, ha0, ha1,
    liftE_ok]
  by_cases m0 : c0 ∈ permCodes
  · obtain ⟨p0, e0, _⟩ := permChar_ok m0
    by_cases m1 : c1 ∈ permCodes
    · obtain ⟨p1, e1, _⟩ := permChar_ok m1
      by_cases m2 : c2 ∈ permCodes
      · obtain ⟨p2, e2, _⟩ := permChar_ok m2
        by_cases m3 : c3 ∈ permCodes
        · exact absurd ⟨m0, m1, m2, m3⟩ hbad
        · refine ⟨c3, by simp, m3, ?_⟩
          simp only [segPerms, hs0, hs1, hs2, hs3, POutcome.ok_bind, e0, e1,
            e2, liftE_ok, segmentPermission_invalid m3, liftE_error,
            POutcome.error_bind]
      · refine ⟨c2, by simp, m2, ?_⟩
        simp only [segPerms, hs0, hs1, hs2, POutcome.ok_bind, e0, e1,
          liftE_ok, segmentPermission_invalid m2, liftE_error,
          POutcome.error_bind]
    · refine ⟨c1, by simp, m1, ?_⟩
      simp only [segPerms, hs0, hs1, POutcome.ok_bind, e0, liftE_ok,
        segmentPermission_invalid m1, liftE_error, POutcome.error_bind]
  · refine ⟨c0, by simp, m0, ?_⟩
    simp only [segPerms, hs0, POutcome.ok_bind,
      segmentPermission_invalid m0, liftE_error, POutcome.error_bind]

/-- Witness for C4's amended theorem on the concrete line
`"0-0 rwqp 0 0:0 0 x"` (`q` is not a permission code). -/
theorem segment_permission_errors_amended_witness :
    ∃ c : Char, c ∈ ['r', 'w', 'q', 'p'] ∧ c ∉ permCodes ∧
      Segment.from_str "0-0 rwqp 0 0:0 0 x"
        = .error (.segmentParse (.parseError
            ("Unknown segment permission: " ++ String.mk [c]))) :=
  segment_permission_errors_amended.1 "0-0 rwqp 0 0:0 0 x"
    "0-0" "rwqp" "0" "0:0" "0" "x" [] 'r' 'w' 'q' 'p' "0" "0" 0 0
    rfl rfl rfl rfl rfl rfl rfl rfl rfl (by decide)

/-- Evaluation of the status-line decoder on an explicit list of 52 or
more tokens. -/
theorem processFromTokens_eval (t0 t1 t2 t3 t4 t5 t6 t7 t8 t9 t10 t11 t12 t13 t14 t15 t16 t17 t18 t19 t20 t21 t22 t23 t24 t25 t26 t27 t28 t29 t30 t31 t32 t33 t34 t35 t36 t37 t38 t39 t40 t41 t42 t43 t44 t45 t46 t47 t48 t49 t50 t51 : String)
    (rest : List String) :
    processFromTokens (t0 :: t1 :: t2 :: t3 :: t4 :: t5 :: t6 :: t7 :: t8 :: t9 :: t10 :: t11 :: t12 :: t13 :: t14 :: t15 :: t16 :: t17 :: t18 :: t19 :: t20 :: t21 :: t22 :: t23 :: t24 :: t25 :: t26 :: t27 :: t28 :: t29 :: t30 :: t31 :: t32 :: t33 :: t34 :: t35 :: t36 :: t37 :: t38 :: t39 :: t40 :: t41 :: t42 :: t43 :: t44 :: t45 :: t46 :: t47 :: t48 :: t49 :: t50 :: t51 :: rest)
      =
      (liftE AnyError.intParse (parse_u32 t0)).bind fun process_id =>
      (liftE AnyError.processParse (ProcessState.from_str t2)).bind fun state =>
      (liftE AnyError.intParse (parse_u32 t3)).bind fun parent_id =>
      (liftE AnyError.intParse (parse_u32 t4)).bind fun parent_group_id =>
      (liftE AnyError.intParse (parse_u32 t5)).bind fun session_id =>
      (liftE AnyError.intParse (parse_u32 t6)).bind fun tty_nr =>
      (liftE AnyError.intParse (parse_u32 t7)).bind fun tpgid =>
      (liftE AnyError.intParse (parse_u32 t8)).bind fun flags =>
      (liftE AnyError.intParse (parse_u64 t9)).bind fun minflt =>
      (liftE AnyError.intParse (parse_u64 t10)).bind fun cminflt =>
      (liftE AnyError.intParse (parse_u64 t11)).bind fun majflt =>
      (liftE AnyError.intParse (parse_u64 t12)).bind fun cmajflt =>
      (liftE AnyError.intParse (parse_u64 t13)).bind fun utime =>
      (liftE AnyError.intParse (parse_u64 t14)).bind fun stime =>
      (liftE AnyError.intParse (parse_u64 t15)).bind fun cutime =>
      (liftE AnyError.intParse (parse_u64 t16)).bind fun cstime =>
      (liftE AnyError.intParse (parse_i8 t17)).bind fun priority =>
      (liftE AnyError.intParse (parse_i8 t18)).bind fun nice =>
      (liftE AnyError.intParse (parse_i8 t19)).bind fun num_threads =>
      (liftE AnyError.intParse (parse_u64 t20)).bind fun itrealvalue =>
      (liftE AnyError.intParse (parse_u64 t21)).bind fun starttime =>
      (liftE AnyError.intParse (parse_u64 t22)).bind fun vsize =>
      (liftE AnyError.intParse (parse_u64 t23)).bind fun rss =>
      (liftE AnyError.intParse (parse_u64 t24)).bind fun rsslim =>
      (liftE AnyError.intParse (parse_u64 t25)).bind fun startcode =>
      (liftE AnyError.intParse (parse_u64 t26)).bind fun endcode =>
      (liftE AnyError.intParse (parse_u64 t27)).bind fun startstack =>
      (liftE AnyError.intParse (parse_u64 t28)).bind fun kstkesp =>
      (liftE AnyError.intParse (parse_u64 t29)).bind fun kstkeip =>
      (liftE AnyError.intParse (parse_u64 t30)).bind fun signal =>
      (liftE AnyError.intParse (parse_u64 t31)).bind fun blocked =>
      (liftE AnyError.intParse (parse_u64 t32)).bind fun sigignore =>
      (liftE AnyError.intParse (parse_u64 t33)).bind fun sigcatch =>
      (liftE AnyError.intParse (parse_u64 t34)).bind fun wchan =>
      (liftE AnyError.intParse (parse_u64 t35)).bind fun nswap =>
      (liftE AnyError.intParse (parse_u64 t36)).bind fun cnswap =>
      (liftE AnyError.intParse (parse_i16 t37)).bind fun exit_signal =>
      (liftE AnyError.intParse (parse_i16 t38)).bind fun processor =>
      (liftE AnyError.intParse (parse_u32 t39)).bind fun rt_priority =>
      (liftE AnyError.intParse (parse_u32 t40)).bind fun policy =>
      (liftE AnyError.intParse (parse_u64 t41)).bind fun delayacct_blkio_ticks =>
      (liftE AnyError.intParse (parse_u64 t42)).bind fun guest_time =>
      (liftE AnyError.intParse (parse_u64 t43)).bind fun cguest_time =>
      (liftE AnyError.intParse (parse_u64 t44)).bind fun start_data =>
      (liftE AnyError.intParse (parse_u64 t45)).bind fun end_data =>
      (liftE AnyError.intParse (parse_u64 t46)).bind fun start_brk =>
      (liftE AnyError.intParse (parse_u64 t47)).bind fun arg_start =>
      (liftE AnyError.intParse (parse_u64 t48)).bind fun arg_end =>
      (liftE AnyError.intParse (parse_u64 t49)).bind fun env_start =>
      (liftE AnyError.intParse (parse_u64 t50)).bind fun env_end =>
      (liftE AnyError.intParse (parse_u32 t51)).bind fun exit_code =>
      .ok (Process.new process_id t1 state parent_id parent_group_id session_id tty_nr tpgid flags minflt cminflt majflt cmajflt utime stime cutime cstime priority nice num_threads itrealvalue starttime vsize rss rsslim startcode endcode startstack kstkesp kstkeip signal blocked sigignore sigcatch wchan nswap cnswap exit_signal processor rt_priority policy delayacct_blkio_ticks guest_time cguest_time start_data end_data start_brk arg_start arg_end env_start env_end exit_code) := rfl

/-- C1: a status line of at least 52 whitespace tokens, each parsing at its
declared type (token 2 a state letter), decodes successfully; every field of
the result equals the value parsed from its positional token, with
`threads = none` and `segments = []`. -/
theorem process_decode_correct :
    ∀ (s : String) (t0 t1 t2 t3 t4 t5 t6 t7 t8 t9 t10 t11 t12 t13 t14 t15 t16 t17 t18 t19 t20 t21 t22 t23 t24 t25 t26 t27 t28 t29 t30 t31 t32 t33 t34 t35 t36 t37 t38 t39 t40 t41 t42 t43 t44 t45 t46 t47 t48 t49 t50 t51 : String)
      (rest : List String)
      (v0 v3 v4 v5 v6 v7 v8 v9 v10 v11 v12 v13 v14 v15 v16 v20 v21 v22 v23 v24 v25 v26 v27 v28 v29 v30 v31 v32 v33 v34 v35 v36 v39 v40 v41 v42 v43 v44 v45 v46 v47 v48 v49 v50 v51 : Nat)
      (st : ProcessState) (v17 v18 v19 v37 v38 : Int),
      splitWs s = t0 :: t1 :: t2 :: t3 :: t4 :: t5 :: t6 :: t7 :: t8 :: t9 :: t10 :: t11 :: t12 :: t13 :: t14 :: t15 :: t16 :: t17 :: t18 :: t19 :: t20 :: t21 :: t22 :: t23 :: t24 :: t25 :: t26 :: t27 :: t28 :: t29 :: t30 :: t31 :: t32 :: t33 :: t34 :: t35 :: t36 :: t37 :: t38 :: t39 :: t40 :: t41 :: t42 :: t43 :: t44 :: t45 :: t46 :: t47 :: t48 :: t49 :: t50 :: t51 :: rest →
      parse_u32 t0 = .ok v0 →
      ProcessState.from_str t2 = .ok st →
      parse_u32 t3 = .ok v3 →
      parse_u32 t4 = .ok v4 →
      parse_u32 t5 = .ok v5 →
      parse_u32 t6 = .ok v6 →
      parse_u32 t7 = .ok v7 →
      parse_u32 t8 = .ok v8 →
      parse_u64 t9 = .ok v9 →
      parse_u64 t10 = .ok v10 →
      parse_u64 t11 = .ok v11 →
      parse_u64 t12 = .ok v12 →
      parse_u64 t13 = .ok v13 →
      parse_u64 t14 = .ok v14 →
      parse_u64 t15 = .ok v15 →
      parse_u64 t16 = .ok v16 →
      parse_i8 t17 = .ok v17 →
      parse_i8 t18 = .ok v18 →
      parse_i8 t19 = .ok v19 →
      parse_u64 t20 = .ok v20 →
      parse_u64 t21 = .ok v21 →
      parse_u64 t22 = .ok v22 →
      parse_u64 t23 = .ok v23 →
      parse_u64 t24 = .ok v24 →
      parse_u64 t25 = .ok v25 →
      parse_u64 t26 = .ok v26 →
      parse_u64 t27 = .ok v27 →
      parse_u64 t28 = .ok v28 →
      parse_u64 t29 = .ok v29 →
      parse_u64 t30 = .ok v30 →
      parse_u64 t31 = .ok v31 →
      parse_u64 t32 = .ok v32 →
      parse_u64 t33 = .ok v33 →
      parse_u64 t34 = .ok v34 →
      parse_u64 t35 = .ok v35 →
      parse_u64 t36 = .ok v36 →
      parse_i16 t37 = .ok v37 →
      parse_i16 t38 = .ok v38 →
      parse_u32 t39 = .ok v39 →
      parse_u32 t40 = .ok v40 →
      parse_u64 t41 = .ok v41 →
      parse_u64 t42 = .ok v42 →
      parse_u64 t43 = .ok v43 →
      parse_u64 t44 = .ok v44 →
      parse_u64 t45 = .ok v45 →
      parse_u64 t46 = .ok v46 →
      parse_u64 t47 = .ok v47 →
      parse_u64 t48 = .ok v48 →
      parse_u64 t49 = .ok v49 →
      parse_u64 t50 = .ok v50 →
      parse_u32 t51 = .ok v51 →
      ∃ p : Process, Process.from_str s = .ok p ∧
        p.fields = ⟨v0, t1, st, v3, v4, v5, v6, v7, v8, v9, v10, v11, v12, v13, v14, v15, v16, v17, v18, v19, v20, v21, v22, v23, v24, v25, v26, v27, v28, v29, v30, v31, v32, v33, v34, v35, v36, v37, v38, v39, v40, v41, v42, v43, v44, v45, v46, v47, v48, v49, v50, v51⟩ ∧
        p.threads = none ∧ p.segments = [] := by
  intro s t0 t1 t2 t3 t4 t5 t6 t7 t8 t9 t10 t11 t12 t13 t14 t15 t16 t17 t18 t19 t20 t21 t22 t23 t24 t25 t26 t27 t28 t29 t30 t31 t32 t33 t34 t35 t36 t37 t38 t39 t40 t41 t42 t43 t44 t45 t46 t47 t48 t49 t50 t51 rest
    v0 v3 v4 v5 v6 v7 v8 v9 v10 v11 v12 v13 v14 v15 v16 v20 v21 v22 v23 v24 v25 v26 v27 v28 v29 v30 v31 v32 v33 v34 v35 v36 v39 v40 v41 v42 v43 v44 v45 v46 v47 v48 v49 v50 v51
    st v17 v18 v19 v37 v38
    hsplit h0 h2 h3 h4 h5 h6 h7 h8 h9 h10 h11 h12 h13 h14 h15 h16 h17 h18 h19 h20 h21 h22 h23 h24 h25 h26 h27 h28 h29 h30 h31 h32 h33 h34 h35 h36 h37 h38 h39 h40 h41 h42 h43 h44 h45 h46 h47 h48 h49 h50 h51
  unfold Process.from_str
  rw [hsplit, processFromTokens_eval]
  simp only [h0, h2, h3, h4, h5, h6, h7, h8, h9, h10, h11, h12, h13, h14, h15, h16, h17, h18, h19, h20, h21, h22, h23, h24, h25, h26, h27, h28, h29, h30, h31, h32, h33, h34, h35, h36, h37, h38, h39, h40, h41, h42, h43, h44, h45, h46, h47, h48, h49, h50, h51, liftE_ok, POutcome.ok_bind]
  exact ⟨_, rfl, rfl, rfl, rfl⟩

/-- Witness for C1 on a concrete valid 52-token status line. -/
theorem process_decode_correct_witness :
    ∃ p : Process,
      Process.from_str "1 (init) S 0 1 1 0 5 4194560 10 11 12 13 14 15 16 17 20 0 1 0 21 22 23 24 25 26 27 28 29 30 31 32 33 34 0 0 17 3 0 0 41 42 43 44 45 46 47 48 49 50 0" = .ok p ∧
      p.fields = ⟨1, "(init)", .InterruptibleSleep, 0, 1, 1, 0, 5, 4194560, 10, 11, 12, 13, 14, 15, 16, 17, 20, 0, 1, 0, 21, 22, 23, 24, 25, 26, 27, 28, 29, 30, 31, 32, 33, 34, 0, 0, 17, 3, 0, 0, 41, 42, 43, 44, 45, 46, 47, 48, 49, 50, 0⟩ ∧
      p.threads = none ∧ p.segments = [] :=
  process_decode_correct "1 (init) S 0 1 1 0 5 4194560 10 11 12 13 14 15 16 17 20 0 1 0 21 22 23 24 25 26 27 28 29 30 31 32 33 34 0 0 17 3 0 0 41 42 43 44 45 46 47 48 49 50 0"
    _ _ _ _ _ _ _ _ _ _ _ _ _ _ _ _ _ _ _ _ _ _ _ _ _ _ _ _ _ _ _ _ _ _ _ _ _ _ _ _ _ _ _ _ _ _ _ _ _ _ _ _ _
    _ _ _ _ _ _ _ _ _ _ _ _ _ _ _ _ _ _ _ _ _ _ _ _ _ _ _ _ _ _ _ _ _ _ _ _ _ _ _ _ _ _ _ _ _ _ _ _ _ _ _
    rfl rfl rfl rfl rfl rfl rfl rfl rfl rfl rfl rfl rfl rfl rfl rfl rfl rfl rfl rfl rfl rfl rfl rfl rfl rfl rfl rfl rfl rfl rfl rfl rfl rfl rfl rfl rfl rfl rfl rfl rfl rfl rfl rfl rfl rfl rfl rfl rfl rfl rfl rfl

/-- Evaluation of the status-line decoder on an explicit list of exactly 51
tokens: after the 51st parse the decoder indexes `parts[51]`, which is out
of bounds, so the computation panics. -/
theorem processFromTokens_eval51 (t0 t1 t2 t3 t4 t5 t6 t7 t8 t9 t10 t11 t12 t13 t14 t15 t16 t17 t18 t19 t20 t21 t22 t23 t24 t25 t26 t27 t28 t29 t30 t31 t32 t33 t34 t35 t36 t37 t38 t39 t40 t41 t42 t43 t44 t45 t46 t47 t48 t49 t50 : String) :
    processFromTokens [t0, t1, t2, t3, t4, t5, t6, t7, t8, t9, t10, t11, t12, t13, t14, t15, t16, t17, t18, t19, t20, t21, t22, t23, t24, t25, t26, t27, t28, t29, t30, t31, t32, t33, t34, t35, t36, t37, t38, t39, t40, t41, t42, t43, t44, t45, t46, t47, t48, t49, t50]
      =
      (liftE AnyError.intParse (parse_u32 t0)).bind fun _process_id =>
      (liftE AnyError.processParse (ProcessState.from_str t2)).bind fun _state =>
      (liftE AnyError.intParse (parse_u32 t3)).bind fun _parent_id =>
      (liftE AnyError.intParse (parse_u32 t4)).bind fun _parent_group_id =>
      (liftE AnyError.intParse (parse_u32 t5)).bind fun _session_id =>
      (liftE AnyError.intParse (parse_u32 t6)).bind fun _tty_nr =>
      (liftE AnyError.intParse (parse_u32 t7)).bind fun _tpgid =>
      (liftE AnyError.intParse (parse_u32 t8)).bind fun _flags =>
      (liftE AnyError.intParse (parse_u64 t9)).bind fun _minflt =>
      (liftE AnyError.intParse (parse_u64 t10)).bind fun _cminflt =>
      (liftE AnyError.intParse (parse_u64 t11)).bind fun _majflt =>
      (liftE AnyError.intParse (parse_u64 t12)).bind fun _cmajflt =>
      (liftE AnyError.intParse (parse_u64 t13)).bind fun _utime =>
      (liftE AnyError.intParse (parse_u64 t14)).bind fun _stime =>
      (liftE AnyError.intParse (parse_u64 t15)).bind fun _cutime =>
      (liftE AnyError.intParse (parse_u64 t16)).bind fun _cstime =>
      (liftE AnyError.intParse (parse_i8 t17)).bind fun _priority =>
      (liftE AnyError.intParse (parse_i8 t18)).bind fun _nice =>
      (liftE AnyError.intParse (parse_i8 t19)).bind fun _num_threads =>
      (liftE AnyError.intParse (parse_u64 t20)).bind fun _itrealvalue =>
      (liftE AnyError.intParse (parse_u64 t21)).bind fun _starttime =>
      (liftE AnyError.intParse (parse_u64 t22)).bind fun _vsize =>
      (liftE AnyError.intParse (parse_u64 t23)).bind fun _rss =>
      (liftE AnyError.intParse (parse_u64 t24)).bind fun _rsslim =>
      (liftE AnyError.intParse (parse_u64 t25)).bind fun _startcode =>
      (liftE AnyError.intParse (parse_u64 t26)).bind fun _endcode =>
      (liftE AnyError.intParse (parse_u64 t27)).bind fun _startstack =>
      (liftE AnyError.intParse (parse_u64 t28)).bind fun _kstkesp =>
      (liftE AnyError.intParse (parse_u64 t29)).bind fun _kstkeip =>
      (liftE AnyError.intParse (parse_u64 t30)).bind fun _signal =>
      (liftE AnyError.intParse (parse_u64 t31)).bind fun _blocked =>
      (liftE AnyError.intParse (parse_u64 t32)).bind fun _sigignore =>
      (liftE AnyError.intParse (parse_u64 t33)).bind fun _sigcatch =>
      (liftE AnyError.intParse (parse_u64 t34)).bind fun _wchan =>
      (liftE AnyError.intParse (parse_u64 t35)).bind fun _nswap =>
      (liftE AnyError.intParse (parse_u64 t36)).bind fun _cnswap =>
      (liftE AnyError.intParse (parse_i16 t37)).bind fun _exit_signal =>
      (liftE AnyError.intParse (parse_i16 t38)).bind fun _processor =>
      (liftE AnyError.intParse (parse_u32 t39)).bind fun _rt_priority =>
      (liftE AnyError.intParse (parse_u32 t40)).bind fun _policy =>
      (liftE AnyError.intParse (parse_u64 t41)).bind fun _delayacct_blkio_ticks =>
      (liftE AnyError.intParse (parse_u64 t42)).bind fun _guest_time =>
      (liftE AnyError.intParse (parse_u64 t43)).bind fun _cguest_time =>
      (liftE AnyError.intParse (parse_u64 t44)).bind fun _start_data =>
      (liftE AnyError.intParse (parse_u64 t45)).bind fun _end_data =>
      (liftE AnyError.intParse (parse_u64 t46)).bind fun _start_brk =>
      (liftE AnyError.intParse (parse_u64 t47)).bind fun _arg_start =>
      (liftE AnyError.intParse (parse_u64 t48)).bind fun _arg_end =>
      (liftE AnyError.intParse (parse_u64 t49)).bind fun _env_start =>
      (liftE AnyError.intParse (parse_u64 t50)).bind fun _env_end =>
      .panicked := rfl

/-- C2 (amended): a status line of exactly 51 whitespace tokens, each
parsing at its declared type, makes `Process::from_str` panic via
out-of-bounds indexing of `parts[51]` — it does not return a typed error
(the code has no field-count check and no `FieldCountError`). -/
theorem process_decode_51_panics :
    ∀ (s : String) (t0 t1 t2 t3 t4 t5 t6 t7 t8 t9 t10 t11 t12 t13 t14 t15 t16 t17 t18 t19 t20 t21 t22 t23 t24 t25 t26 t27 t28 t29 t30 t31 t32 t33 t34 t35 t36 t37 t38 t39 t40 t41 t42 t43 t44 t45 t46 t47 t48 t49 t50 : String)
      (v0 v3 v4 v5 v6 v7 v8 v9 v10 v11 v12 v13 v14 v15 v16 v20 v21 v22 v23 v24 v25 v26 v27 v28 v29 v30 v31 v32 v33 v34 v35 v36 v39 v40 v41 v42 v43 v44 v45 v46 v47 v48 v49 v50 : Nat)
      (st : ProcessState) (v17 v18 v19 v37 v38 : Int),
      splitWs s = [t0, t1, t2, t3, t4, t5, t6, t7, t8, t9, t10, t11, t12, t13, t14, t15, t16, t17, t18, t19, t20, t21, t22, t23, t24, t25, t26, t27, t28, t29, t30, t31, t32, t33, t34, t35, t36, t37, t38, t39, t40, t41, t42, t43, t44, t45, t46, t47, t48, t49, t50] →
      parse_u32 t0 = .ok v0 →
      ProcessState.from_str t2 = .ok st →
      parse_u32 t3 = .ok v3 →
      parse_u32 t4 = .ok v4 →
      parse_u32 t5 = .ok v5 →
      parse_u32 t6 = .ok v6 →
      parse_u32 t7 = .ok v7 →
      parse_u32 t8 = .ok v8 →
      parse_u64 t9 = .ok v9 →
      parse_u64 t10 = .ok v10 →
      parse_u64 t11 = .ok v11 →
      parse_u64 t12 = .ok v12 →
      parse_u64 t13 = .ok v13 →
      parse_u64 t14 = .ok v14 →
      parse_u64 t15 = .ok v15 →
      parse_u64 t16 = .ok v16 →
      parse_i8 t17 = .ok v17 →
      parse_i8 t18 = .ok v18 →
      parse_i8 t19 = .ok v19 →
      parse_u64 t20 = .ok v20 →
      parse_u64 t21 = .ok v21 →
      parse_u64 t22 = .ok v22 →
      parse_u64 t23 = .ok v23 →
      parse_u64 t24 = .ok v24 →
      parse_u64 t25 = .ok v25 →
      parse_u64 t26 = .ok v26 →
      parse_u64 t27 = .ok v27 →
      parse_u64 t28 = .ok v28 →
      parse_u64 t29 = .ok v29 →
      parse_u64 t30 = .ok v30 →
      parse_u64 t31 = .ok v31 →
      parse_u64 t32 = .ok v32 →
      parse_u64 t33 = .ok v33 →
      parse_u64 t34 = .ok v34 →
      parse_u64 t35 = .ok v35 →
      parse_u64 t36 = .ok v36 →
      parse_i16 t37 = .ok v37 →
      parse_i16 t38 = .ok v38 →
      parse_u32 t39 = .ok v39 →
      parse_u32 t40 = .ok v40 →
      parse_u64 t41 = .ok v41 →
      parse_u64 t42 = .ok v42 →
      parse_u64 t43 = .ok v43 →
      parse_u64 t44 = .ok v44 →
      parse_u64 t45 = .ok v45 →
      parse_u64 t46 = .ok v46 →
      parse_u64 t47 = .ok v47 →
      parse_u64 t48 = .ok v48 →
      parse_u64 t49 = .ok v49 →
      parse_u64 t50 = .ok v50 →
      Process.from_str s = .panicked := by
  intro s t0 t1 t2 t3 t4 t5 t6 t7 t8 t9 t10 t11 t12 t13 t14 t15 t16 t17 t18 t19 t20 t21 t22 t23 t24 t25 t26 t27 t28 t29 t30 t31 t32 t33 t34 t35 t36 t37 t38 t39 t40 t41 t42 t43 t44 t45 t46 t47 t48 t49 t50
    v0 v3 v4 v5 v6 v7 v8 v9 v10 v11 v12 v13 v14 v15 v16 v20 v21 v22 v23 v24 v25 v26 v27 v28 v29 v30 v31 v32 v33 v34 v35 v36 v39 v40 v41 v42 v43 v44 v45 v46 v47 v48 v49 v50
    st v17 v18 v19 v37 v38
    hsplit h0 h2 h3 h4 h5 h6 h7 h8 h9 h10 h11 h12 h13 h14 h15 h16 h17 h18 h19 h20 h21 h22 h23 h24 h25 h26 h27 h28 h29 h30 h31 h32 h33 h34 h35 h36 h37 h38 h39 h40 h41 h42 h43 h44 h45 h46 h47 h48 h49 h50
  unfold Process.from_str
  rw [hsplit, processFromTokens_eval51]
  simp only [h0, h2, h3, h4, h5, h6, h7, h8, h9, h10, h11, h12, h13, h14, h15, h16, h17, h18, h19, h20, h21, h22, h23, h24, h25, h26, h27, h28, h29, h30, h31, h32, h33, h34, h35, h36, h37, h38, h39, h40, h41, h42, h43, h44, h45, h46, h47, h48, h49, h50, liftE_ok, POutcome.ok_bind]

/-- Witness for C2's amended theorem on a concrete valid 51-token status
line. -/
theorem process_decode_51_panics_witness :
    Process.from_str "1 (init) S 0 1 1 0 5 4194560 10 11 12 13 14 15 16 17 20 0 1 0 21 22 23 24 25 26 27 28 29 30 31 32 33 34 0 0 17 3 0 0 41 42 43 44 45 46 47 48 49 50" = .panicked :=
  process_decode_51_panics "1 (init) S 0 1 1 0 5 4194560 10 11 12 13 14 15 16 17 20 0 1 0 21 22 23 24 25 26 27 28 29 30 31 32 33 34 0 0 17 3 0 0 41 42 43 44 45 46 47 48 49 50"
    _ _ _ _ _ _ _ _ _ _ _ _ _ _ _ _ _ _ _ _ _ _ _ _ _ _ _ _ _ _ _ _ _ _ _ _ _ _ _ _ _ _ _ _ _ _ _ _ _ _ _
    _ _ _ _ _ _ _ _ _ _ _ _ _ _ _ _ _ _ _ _ _ _ _ _ _ _ _ _ _ _ _ _ _ _ _ _ _ _ _ _ _ _ _ _ _ _ _ _ _ _
    rfl rfl rfl rfl rfl rfl rfl rfl rfl rfl rfl rfl rfl rfl rfl rfl rfl rfl rfl rfl rfl rfl rfl rfl rfl rfl rfl rfl rfl rfl rfl rfl rfl rfl rfl rfl rfl rfl rfl rfl rfl rfl rfl rfl rfl rfl rfl rfl rfl rfl rfl

/-- C2 counterexample: a concrete status line of 51 valid tokens makes
`Process::from_str` panic instead of returning a typed `FieldCountError`
(no such error exists in the code). -/
theorem process_decode_51_counterexample :
    Process.from_str "1 (init) S 0 1 1 0 5 4194560 10 11 12 13 14 15 16 17 20 0 1 0 21 22 23 24 25 26 27 28 29 30 31 32 33 34 0 0 17 3 0 0 41 42 43 44 45 46 47 48 49 50" = .panicked ∧
    ∀ e : AnyError, Process.from_str "1 (init) S 0 1 1 0 5 4194560 10 11 12 13 14 15 16 17 20 0 1 0 21 22 23 24 25 26 27 28 29 30 31 32 33 34 0 0 17 3 0 0 41 42 43 44 45 46 47 48 49 50" ≠ .error e :=
  ⟨rfl, fun _ h => POutcome.noConfusion h⟩

end Inspector
